import Mathlib

/-!
Shallow embedding of the SPACETRACK propagation core of `tle2.js`
(`src/propagators/constants.ts`, `types.ts`, `sgp4.ts`, `sdp4.ts`,
`sdp8.ts`, `deep-space.ts`, `index.ts`) over the real numbers, together
with theorems settling the frozen claims about the dispatcher, the
Kepler solver, the SGP4/SDP4/SDP8 error handling, and the deep-space
secular/periodic/resonance routines.

JavaScript numbers are modelled as real numbers; `Math.pow` with a
fractional exponent is modelled by `Real.rpow`, integer powers by
monoid powers, and the JavaScript remainder operator `%` (truncated
division) by `jsMod` below.
-/

noncomputable section

open Real Classical

/-! ## Constants (`src/propagators/constants.ts`) -/

/-- `XKE = 0.0743669161`, sqrt(GM) in earth-radii^1.5/min. -/
def XKE : ℝ := 0.0743669161

/-- `XKMPER = 6378.135`, Earth equatorial radius in km. -/
def XKMPER : ℝ := 6378.135

/-- `XJ2 = 1.082616e-3`, second gravitational zonal harmonic. -/
def XJ2 : ℝ := 1.082616e-3

/-- `XJ3 = -0.253881e-5`, third gravitational zonal harmonic. -/
def XJ3 : ℝ := -0.253881e-5

/-- `XJ4 = -1.65597e-6`, fourth gravitational zonal harmonic. -/
def XJ4 : ℝ := -1.65597e-6

/-- `CK2 = 0.5 * XJ2`. -/
def CK2 : ℝ := 0.5 * XJ2

/-- `CK4 = -0.375 * XJ4`. -/
def CK4 : ℝ := -0.375 * XJ4

/-- `A3OVK2 = -XJ3 / CK2`. -/
def A3OVK2 : ℝ := -XJ3 / CK2

/-- `PI = Math.PI`, modelled as the real number π. -/
def PI : ℝ := Real.pi

/-- `TWOPI = 2.0 * PI`. -/
def TWOPI : ℝ := 2.0 * PI

/-- `DEG2RAD = PI / 180.0`. -/
def DEG2RAD : ℝ := PI / 180.0

/-- `AE = 1.0`, Earth radius in Earth radii. -/
def AE : ℝ := 1.0

/-- `TOTHRD = 2.0 / 3.0`. -/
def TOTHRD : ℝ := 2.0 / 3.0

/-- `E6A = 1.0e-6`. -/
def E6A : ℝ := 1.0e-6

/-- `DEEP_SPACE_THRESHOLD = 225.0` minutes. -/
def DEEP_SPACE_THRESHOLD : ℝ := 225.0

/-! ## JavaScript numeric primitives -/

/-- Truncation toward zero, as used by the JavaScript `%` operator. -/
def jsTrunc (x : ℝ) : ℤ :=
  if 0 ≤ x then ⌊x⌋ else ⌈x⌉

/-- The JavaScript remainder `x % d` (truncated division remainder). -/
def jsMod (x d : ℝ) : ℝ :=
  x - d * (jsTrunc (x / d) : ℤ)

/-- `Math.atan2` (total model; the principal-branch case split of the
JavaScript specification, with `atan2 0 0 = 0`). -/
def atan2 (y x : ℝ) : ℝ :=
  if 0 < x then Real.arctan (y / x)
  else if x < 0 then
    (if 0 ≤ y then Real.arctan (y / x) + PI else Real.arctan (y / x) - PI)
  else if 0 < y then PI / 2
  else if y < 0 then -(PI / 2)
  else 0

/-! ## Data model (`src/propagators/types.ts`) -/

/-- Parsed orbital elements from a TLE (`OrbitalElements`). -/
structure OrbitalElements where
  satnum : ℝ
  epochYear : ℝ
  epochDay : ℝ
  jdsatepoch : ℝ
  ndot : ℝ
  nddot : ℝ
  bstar : ℝ
  inclo : ℝ
  nodeo : ℝ
  ecco : ℝ
  argpo : ℝ
  mo : ℝ
  no : ℝ
  revnum : ℝ

/-- Position and velocity vectors in km and km/s (`StateVector`). -/
structure StateVector where
  x : ℝ
  y : ℝ
  z : ℝ
  xdot : ℝ
  ydot : ℝ
  zdot : ℝ
deriving DecidableEq

/-- The `algorithm` tag of a propagation result. -/
inductive Alg where
  | SGP
  | SGP4
  | SDP4
  | SGP8
  | SDP8
deriving DecidableEq

/-- Result from propagation (`PropagationResult`). -/
structure PropagationResult where
  state : StateVector
  tsince : ℝ
  algorithm : Alg
  error : Bool
  errorMessage : Option String

/-- Satellite type based on orbital period (`SatelliteType`). -/
inductive SatelliteType where
  | nearEarth
  | deepSpace
deriving DecidableEq

/-- The all-zero state vector returned on every error path. -/
def zeroSV : StateVector := ⟨0, 0, 0, 0, 0, 0⟩

/-! ## Shared Kepler solver loop

All of `sgp4.ts` (lines 259-278), `sdp4.ts` (lines 191-206) and
`sdp8.ts` (lines 219-235) contain the identical Newton-Raphson loop:
seed `eo1 = capu`; per iteration compute the Newton step `tem5`, clamp
it to ±0.95, add it to `eo1`, and break once `|tem5| < 1e-12`, for at
most 10 iterations. -/

/-- One clamped Newton step of the Kepler loop. -/
def kepStep (axn ayn capu eo1 : ℝ) : ℝ :=
  let sineo1 := Real.sin eo1
  let coseo1 := Real.cos eo1
  let tem5 := (capu - ayn * coseo1 + axn * sineo1 - eo1) /
    (1.0 - coseo1 * axn - sineo1 * ayn)
  if 0.95 ≤ |tem5| then (if 0 < tem5 then 0.95 else -0.95) else tem5

/-- The Kepler loop with explicit fuel: apply the clamped step, stop
early when the applied step magnitude drops below `1e-12`. -/
def solveKeplerAux (axn ayn capu : ℝ) : ℕ → ℝ → ℝ
  | 0, eo1 => eo1
  | n + 1, eo1 =>
    let tem5 := kepStep axn ayn capu eo1
    let eo1' := eo1 + tem5
    if |tem5| < 1e-12 then eo1' else solveKeplerAux axn ayn capu n eo1'

/-- The full Kepler-solver loop: 10 iterations, seeded at `capu`. -/
def solveKepler (axn ayn capu : ℝ) : ℝ :=
  solveKeplerAux axn ayn capu 10 capu

/-! ## Near-Earth base recovery

The mean-motion/semi-major-axis recovery block that appears verbatim at
the top of `sgp4init` (`sgp4.ts` lines 23-34), `sdp4init` (`sdp4.ts`
lines 45-56) and `sdp8init` (`sdp8.ts` lines 45-56). Each quantity is a
function of the element record. -/

/-- `a1 = Math.pow(XKE / no, TOTHRD)`. -/
def a1Of (e : OrbitalElements) : ℝ := (XKE / e.no) ^ TOTHRD

/-- `cosio = Math.cos(inclo)`. -/
def cosioOf (e : OrbitalElements) : ℝ := Real.cos e.inclo

/-- `theta2 = cosio * cosio`. -/
def theta2Of (e : OrbitalElements) : ℝ := cosioOf e * cosioOf e

/-- `x3thm1 = 3.0 * theta2 - 1.0`. -/
def x3thm1Of (e : OrbitalElements) : ℝ := 3.0 * theta2Of e - 1.0

/-- `eosq = ecco * ecco`. -/
def eosqOf (e : OrbitalElements) : ℝ := e.ecco * e.ecco

/-- `betao2 = 1.0 - eosq`. -/
def betao2Of (e : OrbitalElements) : ℝ := 1.0 - eosqOf e

/-- `betao = Math.sqrt(betao2)`. -/
def betaoOf (e : OrbitalElements) : ℝ := Real.sqrt (betao2Of e)

/-- `del1 = (1.5 * CK2 * x3thm1) / (a1 * a1 * betao * betao2)`. -/
def del1Of (e : OrbitalElements) : ℝ :=
  (1.5 * CK2 * x3thm1Of e) / (a1Of e * a1Of e * betaoOf e * betao2Of e)

/-- `ao = a1 * (1 - del1 * (0.5 * TOTHRD + del1 * (1 + (134/81) * del1)))`. -/
def aoOf (e : OrbitalElements) : ℝ :=
  a1Of e * (1.0 - del1Of e * (0.5 * TOTHRD + del1Of e * (1.0 + (134.0 / 81.0) * del1Of e)))

/-- `delo = (1.5 * CK2 * x3thm1) / (ao * ao * betao * betao2)`. -/
def deloOf (e : OrbitalElements) : ℝ :=
  (1.5 * CK2 * x3thm1Of e) / (aoOf e * aoOf e * betaoOf e * betao2Of e)

/-- `xnodp = no / (1.0 + delo)` — the recovered mean motion. -/
def xnodpOf (e : OrbitalElements) : ℝ := e.no / (1.0 + deloOf e)

/-- `aodp = ao / (1.0 - delo)` — the recovered semi-major axis. -/
def aodpOf (e : OrbitalElements) : ℝ := aoOf e / (1.0 - deloOf e)

/-! ## SGP4 initialization (`sgp4.ts` lines 17-177) -/

/-- `isimp` flag: `(aodp * (1.0 - ecco) / AE) < (220.0 / XKMPER + AE) ? 1 : 0`
(`sgp4.ts` line 37). -/
def isimpOf (e : OrbitalElements) : ℕ :=
  if aodpOf e * (1.0 - e.ecco) / AE < 220.0 / XKMPER + AE then 1 else 0

/-- `s4 = 78.0 / XKMPER + AE`. -/
def s4const : ℝ := 78.0 / XKMPER + AE

/-- `qoms24 = Math.pow((120.0 - 78.0) / XKMPER, 4)`. -/
def qoms24const : ℝ := ((120.0 - 78.0) / XKMPER) ^ (4 : ℕ)

/-- `perige = (aodp * (1.0 - ecco) - AE) * XKMPER` (`sgp4.ts` line 42). -/
def perigeOf (e : OrbitalElements) : ℝ := (aodpOf e * (1.0 - e.ecco) - AE) * XKMPER

/-- The km-valued `s` chosen inside the `perige < 156` branch
(`sgp4.ts` lines 47-49): `perige - 78`, or `20` when `perige <= 98`. -/
def sKmOf (e : OrbitalElements) : ℝ :=
  if perigeOf e ≤ 98.0 then 20.0 else perigeOf e - 78.0

/-- Final `s` parameter (`sgp4.ts` lines 44-53). -/
def sOf (e : OrbitalElements) : ℝ :=
  if perigeOf e < 156.0 then sKmOf e / XKMPER + AE else s4const

/-- Final `qoms2t` parameter (`sgp4.ts` lines 45-53). -/
def qoms2tOf (e : OrbitalElements) : ℝ :=
  if perigeOf e < 156.0 then ((120.0 - sKmOf e) / XKMPER) ^ (4 : ℕ) else qoms24const

/-- `pinvsq = 1.0 / (aodp * aodp * betao2 * betao2)`. -/
def pinvsqOf (e : OrbitalElements) : ℝ :=
  1.0 / (aodpOf e * aodpOf e * betao2Of e * betao2Of e)

/-- `tsi = 1.0 / (aodp - s)`. -/
def tsiOf (e : OrbitalElements) : ℝ := 1.0 / (aodpOf e - sOf e)

/-- `eta = aodp * ecco * tsi`. -/
def etaOf (e : OrbitalElements) : ℝ := aodpOf e * e.ecco * tsiOf e

/-- `etasq = eta * eta`. -/
def etasqOf (e : OrbitalElements) : ℝ := etaOf e * etaOf e

/-- `eeta = ecco * eta`. -/
def eetaOf (e : OrbitalElements) : ℝ := e.ecco * etaOf e

/-- `psisq = Math.abs(1.0 - etasq)`. -/
def psisqOf (e : OrbitalElements) : ℝ := |1.0 - etasqOf e|

/-- `coef = qoms2t * Math.pow(tsi, 4)`. -/
def coefOf (e : OrbitalElements) : ℝ := qoms2tOf e * tsiOf e ^ (4 : ℕ)

/-- `coef1 = coef / Math.pow(psisq, 3.5)`. -/
def coef1Of (e : OrbitalElements) : ℝ := coefOf e / psisqOf e ^ (3.5 : ℝ)

/-- `c2` (`sgp4.ts` lines 63-64). -/
def c2Of (e : OrbitalElements) : ℝ :=
  coef1Of e * xnodpOf e *
    (aodpOf e * (1.0 + 1.5 * etasqOf e + eetaOf e * (4.0 + etasqOf e)) +
      (0.75 * CK2 * tsiOf e / psisqOf e) * x3thm1Of e *
        (8.0 + 3.0 * etasqOf e * (8.0 + etasqOf e)))

/-- `c1 = bstar * c2`. -/
def c1Of (e : OrbitalElements) : ℝ := e.bstar * c2Of e

/-- `sinio = Math.sin(inclo)`. -/
def sinioOf (e : OrbitalElements) : ℝ := Real.sin e.inclo

/-- `c3 = coef * tsi * A3OVK2 * aodp * AE * sinio / ecco`. -/
def c3Of (e : OrbitalElements) : ℝ :=
  coefOf e * tsiOf e * A3OVK2 * aodpOf e * AE * sinioOf e / e.ecco

/-- `x1mth2 = 1.0 - theta2`. -/
def x1mth2Of (e : OrbitalElements) : ℝ := 1.0 - theta2Of e

/-- `c4` (`sgp4.ts` lines 69-73). -/
def c4Of (e : OrbitalElements) : ℝ :=
  2.0 * xnodpOf e * coef1Of e * aodpOf e * betao2Of e *
    (etaOf e * (2.0 + 0.5 * etasqOf e) + e.ecco * (0.5 + 2.0 * etasqOf e) -
      (2.0 * CK2 * tsiOf e / (aodpOf e * psisqOf e)) *
        (-3.0 * x3thm1Of e * (1.0 - 2.0 * eetaOf e + etasqOf e * (1.5 - 0.5 * eetaOf e)) +
          0.75 * x1mth2Of e * (2.0 * etasqOf e - eetaOf e * (1.0 + etasqOf e)) *
            Real.cos (2.0 * e.argpo)))

/-- `c5 = 2.0 * coef1 * aodp * betao2 * (1 + 2.75 * (etasq + eeta) + eeta * etasq)`. -/
def c5Of (e : OrbitalElements) : ℝ :=
  2.0 * coef1Of e * aodpOf e * betao2Of e *
    (1.0 + 2.75 * (etasqOf e + eetaOf e) + eetaOf e * etasqOf e)

/-- `theta4 = theta2 * theta2`. -/
def theta4Of (e : OrbitalElements) : ℝ := theta2Of e * theta2Of e

/-- `temp1 = 3.0 * CK2 * pinvsq * xnodp`. -/
def temp1Of (e : OrbitalElements) : ℝ := 3.0 * CK2 * pinvsqOf e * xnodpOf e

/-- `temp2 = temp1 * CK2 * pinvsq`. -/
def temp2Of (e : OrbitalElements) : ℝ := temp1Of e * CK2 * pinvsqOf e

/-- `temp3 = 1.25 * CK4 * pinvsq * pinvsq * xnodp`. -/
def temp3Of (e : OrbitalElements) : ℝ := 1.25 * CK4 * pinvsqOf e * pinvsqOf e * xnodpOf e

/-- `xmdot` (`sgp4.ts` lines 80-81). -/
def xmdotOf (e : OrbitalElements) : ℝ :=
  xnodpOf e + 0.5 * temp1Of e * betaoOf e * x3thm1Of e +
    0.0625 * temp2Of e * betaoOf e * (13.0 - 78.0 * theta2Of e + 137.0 * theta4Of e)

/-- `x1m5th = 1.0 - 5.0 * theta2`. -/
def x1m5thOf (e : OrbitalElements) : ℝ := 1.0 - 5.0 * theta2Of e

/-- `omgdot` (`sgp4.ts` lines 83-84). -/
def omgdotOf (e : OrbitalElements) : ℝ :=
  -0.5 * temp1Of e * x1m5thOf e +
    0.0625 * temp2Of e * (7.0 - 114.0 * theta2Of e + 395.0 * theta4Of e) +
    temp3Of e * (3.0 - 36.0 * theta2Of e + 49.0 * theta4Of e)

/-- `xhdot1 = -temp1 * cosio`. -/
def xhdot1Of (e : OrbitalElements) : ℝ := -temp1Of e * cosioOf e

/-- `xnodot` (`sgp4.ts` lines 86-87). -/
def xnodotOf (e : OrbitalElements) : ℝ :=
  xhdot1Of e + (0.5 * temp2Of e * (4.0 - 19.0 * theta2Of e) +
    2.0 * temp3Of e * (3.0 - 7.0 * theta2Of e)) * cosioOf e

/-- `omgcof = bstar * c3 * Math.cos(argpo)`. -/
def omgcofOf (e : OrbitalElements) : ℝ := e.bstar * c3Of e * Real.cos e.argpo

/-- `xmcof = ecco > 1.0e-4 ? -TOTHRD * coef * bstar * AE / eeta : 0.0`. -/
def xmcofOf (e : OrbitalElements) : ℝ :=
  if 1.0e-4 < e.ecco then -TOTHRD * coefOf e * e.bstar * AE / eetaOf e else 0.0

/-- `xnodcf = 3.5 * betao2 * xhdot1 * c1`. -/
def xnodcfOf (e : OrbitalElements) : ℝ := 3.5 * betao2Of e * xhdot1Of e * c1Of e

/-- `t2cof = 1.5 * c1`. -/
def t2cofOf (e : OrbitalElements) : ℝ := 1.5 * c1Of e

/-- `xlcof = 0.125 * A3OVK2 * sinio * (3.0 + 5.0 * cosio) / (1.0 + cosio)`. -/
def xlcofOf (e : OrbitalElements) : ℝ :=
  0.125 * A3OVK2 * sinioOf e * (3.0 + 5.0 * cosioOf e) / (1.0 + cosioOf e)

/-- `aycof = 0.25 * A3OVK2 * sinio`. -/
def aycofOf (e : OrbitalElements) : ℝ := 0.25 * A3OVK2 * sinioOf e

/-- `delmo = Math.pow(1.0 + eta * Math.cos(mo), 3)`. -/
def delmoOf (e : OrbitalElements) : ℝ := (1.0 + etaOf e * Real.cos e.mo) ^ (3 : ℕ)

/-- `sinmo = Math.sin(mo)`. -/
def sinmoOf (e : OrbitalElements) : ℝ := Real.sin e.mo

/-- `x7thm1 = 7.0 * theta2 - 1.0`. -/
def x7thm1Of (e : OrbitalElements) : ℝ := 7.0 * theta2Of e - 1.0

/-- `c1sq = c1 * c1` (inside the `isimp === 0` block). -/
def c1sqOf (e : OrbitalElements) : ℝ := c1Of e * c1Of e

/-- Unguarded `d2 = 4.0 * aodp * tsi * c1sq`. -/
def ud2Of (e : OrbitalElements) : ℝ := 4.0 * aodpOf e * tsiOf e * c1sqOf e

/-- Unguarded `temp = d2 * tsi * c1 / 3.0`. -/
def udtempOf (e : OrbitalElements) : ℝ := ud2Of e * tsiOf e * c1Of e / 3.0

/-- Unguarded `d3 = (17.0 * aodp + s) * temp`. -/
def ud3Of (e : OrbitalElements) : ℝ := (17.0 * aodpOf e + sOf e) * udtempOf e

/-- Unguarded `d4 = 0.5 * temp * aodp * tsi * (221.0 * aodp + 31.0 * s) * c1`. -/
def ud4Of (e : OrbitalElements) : ℝ :=
  0.5 * udtempOf e * aodpOf e * tsiOf e * (221.0 * aodpOf e + 31.0 * sOf e) * c1Of e

/-- `d2`, zero unless `isimp === 0` (`sgp4.ts` lines 99-115). -/
def d2Of (e : OrbitalElements) : ℝ := if isimpOf e = 0 then ud2Of e else 0

/-- `d3`, zero unless `isimp === 0`. -/
def d3Of (e : OrbitalElements) : ℝ := if isimpOf e = 0 then ud3Of e else 0

/-- `d4`, zero unless `isimp === 0`. -/
def d4Of (e : OrbitalElements) : ℝ := if isimpOf e = 0 then ud4Of e else 0

/-- `t3cof = d2 + 2.0 * c1sq`, zero unless `isimp === 0`. -/
def t3cofOf (e : OrbitalElements) : ℝ :=
  if isimpOf e = 0 then ud2Of e + 2.0 * c1sqOf e else 0

/-- `t4cof = 0.25 * (3.0 * d3 + c1 * (12.0 * d2 + 10.0 * c1sq))`, zero unless
`isimp === 0`. -/
def t4cofOf (e : OrbitalElements) : ℝ :=
  if isimpOf e = 0 then
    0.25 * (3.0 * ud3Of e + c1Of e * (12.0 * ud2Of e + 10.0 * c1sqOf e))
  else 0

/-- `t5cof`, zero unless `isimp === 0` (`sgp4.ts` line 114). -/
def t5cofOf (e : OrbitalElements) : ℝ :=
  if isimpOf e = 0 then
    0.2 * (3.0 * ud4Of e + 12.0 * c1Of e * ud3Of e + 6.0 * ud2Of e * ud2Of e +
      15.0 * c1sqOf e * (2.0 * ud2Of e + c1sqOf e))
  else 0

/-- Internal state for SGP4 initialization (`Sgp4InitState`, `types.ts`). -/
structure Sgp4InitState where
  method : String
  isimp : ℕ
  aycof : ℝ
  con41 : ℝ
  cc1 : ℝ
  cc4 : ℝ
  cc5 : ℝ
  d2 : ℝ
  d3 : ℝ
  d4 : ℝ
  delmo : ℝ
  eta : ℝ
  argpdot : ℝ
  omgcof : ℝ
  sinmao : ℝ
  t : ℝ
  t2cof : ℝ
  t3cof : ℝ
  t4cof : ℝ
  t5cof : ℝ
  x1mth2 : ℝ
  x7thm1 : ℝ
  mdot : ℝ
  nodedot : ℝ
  xlcof : ℝ
  xmcof : ℝ
  nodecf : ℝ
  irez : ℝ
  d2201 : ℝ
  d2211 : ℝ
  d3210 : ℝ
  d3222 : ℝ
  d4410 : ℝ
  d4422 : ℝ
  d5220 : ℝ
  d5232 : ℝ
  d5421 : ℝ
  d5433 : ℝ
  dedt : ℝ
  del1 : ℝ
  del2 : ℝ
  del3 : ℝ
  didt : ℝ
  dmdt : ℝ
  dnodt : ℝ
  domdt : ℝ
  e3 : ℝ
  ee2 : ℝ
  peo : ℝ
  pgho : ℝ
  pho : ℝ
  pinco : ℝ
  plo : ℝ
  se2 : ℝ
  se3 : ℝ
  sgh2 : ℝ
  sgh3 : ℝ
  sgh4 : ℝ
  sh2 : ℝ
  sh3 : ℝ
  si2 : ℝ
  si3 : ℝ
  sl2 : ℝ
  sl3 : ℝ
  sl4 : ℝ
  gsto : ℝ
  xfact : ℝ
  xgh2 : ℝ
  xgh3 : ℝ
  xgh4 : ℝ
  xh2 : ℝ
  xh3 : ℝ
  xi2 : ℝ
  xi3 : ℝ
  xl2 : ℝ
  xl3 : ℝ
  xl4 : ℝ
  xlamo : ℝ
  zmol : ℝ
  zmos : ℝ
  atime : ℝ
  xli : ℝ
  xni : ℝ
  a : ℝ
  altp : ℝ
  alta : ℝ
  epochdays : ℝ
  jdsatepoch : ℝ
  nddot : ℝ
  ndot : ℝ
  bstar : ℝ
  rcse : ℝ
  inclo : ℝ
  nodeo : ℝ
  ecco : ℝ
  argpo : ℝ
  mo : ℝ
  no : ℝ
  init : Bool

/-- `sgp4init` (`sgp4.ts` lines 17-177). -/
def sgp4init (e : OrbitalElements) : Sgp4InitState where
  method := "n"
  isimp := isimpOf e
  aycof := aycofOf e
  con41 := x3thm1Of e
  cc1 := c1Of e
  cc4 := c4Of e
  cc5 := c5Of e
  d2 := d2Of e
  d3 := d3Of e
  d4 := d4Of e
  delmo := delmoOf e
  eta := etaOf e
  argpdot := omgdotOf e
  omgcof := omgcofOf e
  sinmao := sinmoOf e
  t := 0.0
  t2cof := t2cofOf e
  t3cof := t3cofOf e
  t4cof := t4cofOf e
  t5cof := t5cofOf e
  x1mth2 := x1mth2Of e
  x7thm1 := x7thm1Of e
  mdot := xmdotOf e
  nodedot := xnodotOf e
  xlcof := xlcofOf e
  xmcof := xmcofOf e
  nodecf := xnodcfOf e
  irez := 0
  d2201 := 0
  d2211 := 0
  d3210 := 0
  d3222 := 0
  d4410 := 0
  d4422 := 0
  d5220 := 0
  d5232 := 0
  d5421 := 0
  d5433 := 0
  dedt := 0
  del1 := 0
  del2 := 0
  del3 := 0
  didt := 0
  dmdt := 0
  dnodt := 0
  domdt := 0
  e3 := 0
  ee2 := 0
  peo := 0
  pgho := 0
  pho := 0
  pinco := 0
  plo := 0
  se2 := 0
  se3 := 0
  sgh2 := 0
  sgh3 := 0
  sgh4 := 0
  sh2 := 0
  sh3 := 0
  si2 := 0
  si3 := 0
  sl2 := 0
  sl3 := 0
  sl4 := 0
  gsto := 0
  xfact := 0
  xgh2 := 0
  xgh3 := 0
  xgh4 := 0
  xh2 := 0
  xh3 := 0
  xi2 := 0
  xi3 := 0
  xl2 := 0
  xl3 := 0
  xl4 := 0
  xlamo := 0
  zmol := 0
  zmos := 0
  atime := 0
  xli := 0
  xni := 0
  a := aodpOf e
  altp := (aodpOf e * (1.0 - e.ecco) - AE) * XKMPER
  alta := (aodpOf e * (1.0 + e.ecco) - AE) * XKMPER
  epochdays := e.epochDay
  jdsatepoch := e.jdsatepoch
  nddot := e.nddot
  ndot := e.ndot
  bstar := e.bstar
  rcse := 0
  inclo := e.inclo
  nodeo := e.nodeo
  ecco := e.ecco
  argpo := e.argpo
  mo := e.mo
  no := xnodpOf e
  init := true

/-! ## SGP4 evaluation (`sgp4.ts` lines 187-353)

Each intermediate quantity of the evaluation body is a function of the
(destructured) initialization state `s` and the time `t = tsince`. -/

/-- `xmdf = mo + mdot * t`. -/
def sgp4_xmdf (s : Sgp4InitState) (t : ℝ) : ℝ := s.mo + s.mdot * t

/-- `omgadf = argpo + argpdot * t`. -/
def sgp4_omgadf (s : Sgp4InitState) (t : ℝ) : ℝ := s.argpo + s.argpdot * t

/-- `xnode = xnoddf + nodecf * tsq` where `xnoddf = nodeo + nodedot * t`. -/
def sgp4_xnode (s : Sgp4InitState) (t : ℝ) : ℝ :=
  (s.nodeo + s.nodedot * t) + s.nodecf * (t * t)

/-- `delm = xmcof > 0 ? xmcof * ((1 + eta * cos(xmdf))^3 - delmo) : 0`
(`sgp4.ts` line 219). -/
def sgp4_delm (s : Sgp4InitState) (t : ℝ) : ℝ :=
  if 0 < s.xmcof then
    s.xmcof * ((1.0 + s.eta * Real.cos (sgp4_xmdf s t)) ^ (3 : ℕ) - s.delmo)
  else 0.0

/-- `temp = delomg + delm` where `delomg = omgcof * t` (`sgp4.ts` line 220). -/
def sgp4_dtemp (s : Sgp4InitState) (t : ℝ) : ℝ := s.omgcof * t + sgp4_delm s t

/-- `xmp`: `xmdf`, corrected by `temp` when `isimp === 0`. -/
def sgp4_xmp (s : Sgp4InitState) (t : ℝ) : ℝ :=
  if s.isimp = 0 then sgp4_xmdf s t + sgp4_dtemp s t else sgp4_xmdf s t

/-- `omega`: `omgadf`, corrected by `-temp` when `isimp === 0`. -/
def sgp4_omega (s : Sgp4InitState) (t : ℝ) : ℝ :=
  if s.isimp = 0 then sgp4_omgadf s t - sgp4_dtemp s t else sgp4_omgadf s t

/-- `tempa`: `1 - cc1*t`, minus `d2*t² + d3*t³ + d4*t⁴` when `isimp === 0`. -/
def sgp4_tempa (s : Sgp4InitState) (t : ℝ) : ℝ :=
  if s.isimp = 0 then
    1.0 - s.cc1 * t - s.d2 * (t * t) - s.d3 * ((t * t) * t) - s.d4 * (t * ((t * t) * t))
  else 1.0 - s.cc1 * t

/-- `tempe`: `bstar*cc4*t`, plus `bstar*cc5*(sin(xmp) - sinmao)` when
`isimp === 0`. -/
def sgp4_tempe (s : Sgp4InitState) (t : ℝ) : ℝ :=
  if s.isimp = 0 then
    s.bstar * s.cc4 * t + s.bstar * s.cc5 * (Real.sin (sgp4_xmp s t) - s.sinmao)
  else s.bstar * s.cc4 * t

/-- `templ`: `t2cof*t²`, plus `t3cof*t³ + t⁴*(t4cof + t*t5cof)` when
`isimp === 0`. -/
def sgp4_templ (s : Sgp4InitState) (t : ℝ) : ℝ :=
  if s.isimp = 0 then
    s.t2cof * (t * t) + s.t3cof * ((t * t) * t) +
      (t * ((t * t) * t)) * (s.t4cof + t * s.t5cof)
  else s.t2cof * (t * t)

/-- `a = aodp * tempa * tempa` (`sgp4.ts` line 230). -/
def sgp4_a (s : Sgp4InitState) (t : ℝ) : ℝ := s.a * sgp4_tempa s t * sgp4_tempa s t

/-- `e = ecco - tempe` (`sgp4.ts` line 231). -/
def sgp4_e (s : Sgp4InitState) (t : ℝ) : ℝ := s.ecco - sgp4_tempe s t

/-- `xl = xmp + omega + xnode + xnodp * templ`. -/
def sgp4_xl (s : Sgp4InitState) (t : ℝ) : ℝ :=
  sgp4_xmp s t + sgp4_omega s t + sgp4_xnode s t + s.no * sgp4_templ s t

/-- `em = Math.max(e, 1e-6)` — the clamped eccentricity. -/
def sgp4_em (s : Sgp4InitState) (t : ℝ) : ℝ := max (sgp4_e s t) 1e-6

/-- `beta = Math.sqrt(1.0 - em * em)`. -/
def sgp4_beta (s : Sgp4InitState) (t : ℝ) : ℝ :=
  Real.sqrt (1.0 - sgp4_em s t * sgp4_em s t)

/-- `xn = XKE / Math.pow(a, 1.5)`. -/
def sgp4_xn (s : Sgp4InitState) (t : ℝ) : ℝ := XKE / sgp4_a s t ^ (1.5 : ℝ)

/-- `axn = em * Math.cos(omega)`. -/
def sgp4_axn (s : Sgp4InitState) (t : ℝ) : ℝ :=
  sgp4_em s t * Real.cos (sgp4_omega s t)

/-- `temp = 1.0 / (a * beta * beta)` (`sgp4.ts` line 253). -/
def sgp4_lptemp (s : Sgp4InitState) (t : ℝ) : ℝ :=
  1.0 / (sgp4_a s t * sgp4_beta s t * sgp4_beta s t)

/-- `xlt = xl + xlp` where `xlp = temp * xlcof * axn`. -/
def sgp4_xlt (s : Sgp4InitState) (t : ℝ) : ℝ :=
  sgp4_xl s t + sgp4_lptemp s t * s.xlcof * sgp4_axn s t

/-- `ayn = em * Math.sin(omega) + aynl` where `aynl = temp * aycof`. -/
def sgp4_ayn (s : Sgp4InitState) (t : ℝ) : ℝ :=
  sgp4_em s t * Real.sin (sgp4_omega s t) + sgp4_lptemp s t * s.aycof

/-- `capu = (xlt - xnode) % TWOPI`. -/
def sgp4_capu (s : Sgp4InitState) (t : ℝ) : ℝ :=
  jsMod (sgp4_xlt s t - sgp4_xnode s t) TWOPI

/-- `epw`: the Kepler-loop result (`sgp4.ts` lines 261-278). -/
def sgp4_epw (s : Sgp4InitState) (t : ℝ) : ℝ :=
  solveKepler (sgp4_axn s t) (sgp4_ayn s t) (sgp4_capu s t)

/-- `elsq = axn * axn + ayn * ayn`. -/
def sgp4_elsq (s : Sgp4InitState) (t : ℝ) : ℝ :=
  sgp4_axn s t * sgp4_axn s t + sgp4_ayn s t * sgp4_ayn s t

/-- `pl = a * (1.0 - elsq)` — the semi-latus rectum (`sgp4.ts` line 286). -/
def sgp4_pl (s : Sgp4InitState) (t : ℝ) : ℝ := sgp4_a s t * (1.0 - sgp4_elsq s t)

/-- The success-branch state vector of SGP4 (`sgp4.ts` lines 298-345). -/
def sgp4_finalSV (s : Sgp4InitState) (t : ℝ) : StateVector :=
  let a := sgp4_a s t
  let axn := sgp4_axn s t
  let ayn := sgp4_ayn s t
  let epw := sgp4_epw s t
  let elsq := sgp4_elsq s t
  let pl := sgp4_pl s t
  let xn := sgp4_xn s t
  let x3thm1 := s.con41
  let cosio := Real.cos s.inclo
  let sinio := Real.sin s.inclo
  let sinepw := Real.sin epw
  let cosepw := Real.cos epw
  let ecose := axn * cosepw + ayn * sinepw
  let esine := axn * sinepw - ayn * cosepw
  let r := a * (1.0 - ecose)
  let rdot := XKE * Real.sqrt a * esine / r
  let rfdot := XKE * Real.sqrt pl / r
  let betal := Real.sqrt (1.0 - elsq)
  let temp6 := esine / (1.0 + betal)
  let aOverR := a / r
  let cosu := aOverR * (cosepw - axn + ayn * temp6)
  let sinu := aOverR * (sinepw - ayn - axn * temp6)
  let u := atan2 sinu cosu
  let sin2u := 2.0 * sinu * cosu
  let cos2u := 2.0 * cosu * cosu - 1.0
  let temp7 := 1.0 / pl
  let temp8 := CK2 * temp7
  let temp9 := temp8 * temp7
  let rk := r * (1.0 - 1.5 * temp9 * betal * x3thm1) + 0.5 * temp8 * s.x1mth2 * cos2u
  let uk := u - 0.25 * temp9 * s.x7thm1 * sin2u
  let xnodek := sgp4_xnode s t + 1.5 * temp9 * cosio * sin2u
  let xinck := s.inclo + 1.5 * temp9 * cosio * sinio * cos2u
  let rdotk := rdot - xn * temp8 * s.x1mth2 * sin2u
  let rfdotk := rfdot + xn * temp8 * (s.x1mth2 * cos2u + 1.5 * x3thm1)
  let sinuk := Real.sin uk
  let cosuk := Real.cos uk
  let sinik := Real.sin xinck
  let cosik := Real.cos xinck
  let sinnok := Real.sin xnodek
  let cosnok := Real.cos xnodek
  let xmx := -sinnok * cosik
  let xmy := cosnok * cosik
  let ux := xmx * sinuk + cosnok * cosuk
  let uy := xmy * sinuk + sinnok * cosuk
  let uz := sinik * sinuk
  let vx := xmx * cosuk - cosnok * sinuk
  let vy := xmy * cosuk - sinnok * sinuk
  let vz := sinik * cosuk
  { x := rk * ux * XKMPER
    y := rk * uy * XKMPER
    z := rk * uz * XKMPER
    xdot := (rdotk * ux + rfdotk * vx) * XKMPER / 60.0
    ydot := (rdotk * uy + rfdotk * vy) * XKMPER / 60.0
    zdot := (rdotk * uz + rfdotk * vz) * XKMPER / 60.0 }

/-- The SGP4 evaluation body on a given initialization state
(`sgp4.ts` lines 191-353). -/
def sgp4Run (s : Sgp4InitState) (t : ℝ) : PropagationResult :=
  if sgp4_a s t < 0.95 ∨ 1 ≤ sgp4_e s t ∨ sgp4_e s t < -0.001 then
    { state := zeroSV, tsince := t, algorithm := Alg.SGP4, error := true,
      errorMessage := some ("Satellite has decayed") }
  else if sgp4_pl s t < 0 then
    { state := zeroSV, tsince := t, algorithm := Alg.SGP4, error := true,
      errorMessage := some ("Semi-latus rectum is negative") }
  else
    { state := sgp4_finalSV s t, tsince := t, algorithm := Alg.SGP4,
      error := false, errorMessage := none }

/-- `sgp4(elements, tsince, initState?)`: initialize if no state was
provided (`sgp4.ts` line 189), then evaluate. -/
def sgp4 (e : OrbitalElements) (tsince : ℝ)
    (initState : Option Sgp4InitState) : PropagationResult :=
  sgp4Run (initState.getD (sgp4init e)) tsince

/-! ## Deep-space subroutines (`deep-space.ts`) -/

/-- Solar mean motion `ZNS = 1.19459e-5` rad/min. -/
def ZNS : ℝ := 1.19459e-5

/-- Solar eccentricity `ZES = 0.01675`. -/
def ZES : ℝ := 0.01675

/-- Lunar mean motion `ZNL = 1.5835218e-4` rad/min. -/
def ZNL : ℝ := 1.5835218e-4

/-- Lunar eccentricity `ZEL = 0.05490`. -/
def ZEL : ℝ := 0.05490

/-- Deep-space common block (`DeepSpaceCommon`, `deep-space.ts` lines 13-80). -/
structure DeepSpaceCommon where
  thgr : ℝ
  xnq : ℝ
  xqncl : ℝ
  omegaq : ℝ
  zmol : ℝ
  zmos : ℝ
  peo : ℝ
  pinco : ℝ
  plo : ℝ
  pgho : ℝ
  pho : ℝ
  se2 : ℝ
  se3 : ℝ
  si2 : ℝ
  si3 : ℝ
  sl2 : ℝ
  sl3 : ℝ
  sl4 : ℝ
  sgh2 : ℝ
  sgh3 : ℝ
  sgh4 : ℝ
  sh2 : ℝ
  sh3 : ℝ
  ee2 : ℝ
  e3 : ℝ
  xi2 : ℝ
  xi3 : ℝ
  xl2 : ℝ
  xl3 : ℝ
  xl4 : ℝ
  xgh2 : ℝ
  xgh3 : ℝ
  xgh4 : ℝ
  xh2 : ℝ
  xh3 : ℝ
  d2201 : ℝ
  d2211 : ℝ
  d3210 : ℝ
  d3222 : ℝ
  d4410 : ℝ
  d4422 : ℝ
  d5220 : ℝ
  d5232 : ℝ
  d5421 : ℝ
  d5433 : ℝ
  del1 : ℝ
  del2 : ℝ
  del3 : ℝ
  xlamo : ℝ
  xfact : ℝ
  xli : ℝ
  xni : ℝ
  atime : ℝ
  iresfl : Bool
  isynfl : Bool
  dedt : ℝ
  didt : ℝ
  dmdt : ℝ
  domdt : ℝ
  dnodt : ℝ

/-- Greenwich Sidereal Time (`gstime`, `deep-space.ts` lines 83-94). -/
def gstime (jd : ℝ) : ℝ :=
  let tut1 := (jd - 2451545.0) / 36525.0
  let temp := -6.2e-6 * tut1 * tut1 * tut1 + 0.093104 * tut1 * tut1 +
    (876600.0 * 3600 + 8640184.812866) * tut1 + 67310.54841
  let temp2 := jsMod (temp * DEG2RAD / 240.0) TWOPI
  if temp2 < 0 then temp2 + TWOPI else temp2

/-- `(x % TWOPI + TWOPI) % TWOPI`, as used for `zmos`/`zmol` in `dsinit`
(`deep-space.ts` lines 161 and 165). -/
def wrapTwoPi (x : ℝ) : ℝ := jsMod (jsMod x TWOPI + TWOPI) TWOPI

/-- The resonance condition of `dsinit` (`deep-space.ts` lines 225-233):
period ≥ 1200 min, or period in the 600-800 min band. -/
def dsResonant (xnodp : ℝ) : Prop :=
  1200.0 ≤ TWOPI / xnodp ∨ (600.0 ≤ TWOPI / xnodp ∧ TWOPI / xnodp ≤ 800.0)

/-- `dsinit` (`deep-space.ts` lines 99-244). The record below collects
the final values of the fields after the sequential assignments of the
source (fields never reassigned keep their initial zeroes; the
resonance flags and integrator seed are guarded by the period tests of
lines 225-241). -/
def dsinit (epoch xnodp ecco inclo nodeo argpo mo : ℝ) : DeepSpaceCommon :=
  let sinim := Real.sin inclo
  let cosim := Real.cos inclo
  let day := epoch - 2433281.5 + 18261.5
  let sinc := sinim
  let cosc := cosim
  let cosi2 := cosc * cosc
  let period := TWOPI / xnodp
  { thgr := gstime epoch
    xnq := xnodp
    xqncl := inclo
    omegaq := argpo
    zmos := wrapTwoPi (6.2565837 + 0.017201977 * day)
    zmol := wrapTwoPi (4.7199672 + 0.2299715 * day)
    peo := 0
    pinco := 0
    plo := 0
    pgho := 0
    pho := 0
    se2 := -ZNS * 1.5 * sinc * cosc * ZES * 2.0 / xnodp
    se3 := -ZNS * 3.0 * sinc * cosc * ZES / xnodp
    si2 := ZNS * 0.5 * sinc * (1.0 - 5.0 * cosi2) * ZES / xnodp
    si3 := ZNS * sinc * (1.0 - 5.0 * cosi2) * ZES / xnodp
    sl2 := -ZNS * 0.5 / xnodp
    sl3 := -ZNS / xnodp
    sl4 := -ZNS * 2.0 / xnodp
    sgh2 := ZNS * cosc * ZES / xnodp
    sgh3 := ZNS * 2.0 * cosc * ZES / xnodp
    sgh4 := -ZNS * 2.0 * ZES / xnodp
    sh2 := -ZNS * sinc * ZES / xnodp
    sh3 := -ZNS * 2.0 * sinc * ZES / xnodp
    ee2 := 2.0 * ZNL * ZEL / xnodp
    e3 := 2.0 * ZNL * ZEL / xnodp
    xi2 := 2.0 * ZNL * ZEL / xnodp
    xi3 := 2.0 * ZNL * ZEL / xnodp
    xl2 := -2.0 * ZNL / xnodp
    xl3 := -2.0 * ZNL / xnodp
    xl4 := -2.0 * ZNL / xnodp
    xgh2 := 2.0 * ZNL * ZEL / xnodp
    xgh3 := 2.0 * ZNL * ZEL / xnodp
    xgh4 := -2.0 * ZNL * ZEL / xnodp
    xh2 := -2.0 * ZNL * ZEL / xnodp
    xh3 := -2.0 * ZNL * ZEL / xnodp
    d2201 := 0
    d2211 := 0
    d3210 := 0
    d3222 := 0
    d4410 := 0
    d4422 := 0
    d5220 := 0
    d5232 := 0
    d5421 := 0
    d5433 := 0
    del1 := 0
    del2 := 0
    del3 := 0
    xlamo := 0
    xfact := 0
    xli := if 1200.0 ≤ period ∨ (600.0 ≤ period ∧ period ≤ 800.0) then mo else 0
    xni := if 1200.0 ≤ period ∨ (600.0 ≤ period ∧ period ≤ 800.0) then xnodp else 0
    atime := 0
    iresfl :=
      if 1200.0 ≤ period then true
      else if 600.0 ≤ period ∧ period ≤ 800.0 then true
      else false
    isynfl :=
      if 1200.0 ≤ period then true
      else if 600.0 ≤ period ∧ period ≤ 800.0 then false
      else false
    dedt := ZNS * ZES * 0.5e-6
    didt := ZNS * 0.1e-6
    dmdt := ZNS * 1.0e-6
    domdt := ZNS * 0.5e-6
    dnodt := ZNL * 0.2e-6 }

/-- Solar mean anomaly at time `t`: `zms = ds.zmos + ZNS * t`
(used by both `dssec` and `dsper`). -/
def dsZms (ds : DeepSpaceCommon) (t : ℝ) : ℝ := ds.zmos + ZNS * t

/-- Lunar mean anomaly at time `t`: `zml = ds.zmol + ZNL * t`. -/
def dsZml (ds : DeepSpaceCommon) (t : ℝ) : ℝ := ds.zmol + ZNL * t

/-- Output record of `dssec`. -/
structure DsSecOut where
  e : ℝ
  xinc : ℝ
  omgadf : ℝ
  xnode : ℝ
  xmam : ℝ

/-- `f2s = 0.5 * sin(zms)^2 - 0.25` (`deep-space.ts` line 270). -/
def dssec_f2s (ds : DeepSpaceCommon) (t : ℝ) : ℝ :=
  0.5 * Real.sin (dsZms ds t) * Real.sin (dsZms ds t) - 0.25

/-- `f3s = -0.5 * sin(zms) * cos(zms)`. -/
def dssec_f3s (ds : DeepSpaceCommon) (t : ℝ) : ℝ :=
  -0.5 * Real.sin (dsZms ds t) * Real.cos (dsZms ds t)

/-- `f2l = 0.5 * sin(zml)^2 - 0.25`. -/
def dssec_f2l (ds : DeepSpaceCommon) (t : ℝ) : ℝ :=
  0.5 * Real.sin (dsZml ds t) * Real.sin (dsZml ds t) - 0.25

/-- `f3l = -0.5 * sin(zml) * cos(zml)`. -/
def dssec_f3l (ds : DeepSpaceCommon) (t : ℝ) : ℝ :=
  -0.5 * Real.sin (dsZml ds t) * Real.cos (dsZml ds t)

/-- `pe` of `dssec` (`deep-space.ts` line 280). -/
def dssec_pe (ds : DeepSpaceCommon) (t : ℝ) : ℝ :=
  (ds.se2 * dssec_f2s ds t + ds.se3 * dssec_f3s ds t) +
    (ds.ee2 * dssec_f2l ds t + ds.e3 * dssec_f3l ds t)

/-- `pinc` of `dssec` (`deep-space.ts` line 281). -/
def dssec_pinc (ds : DeepSpaceCommon) (t : ℝ) : ℝ :=
  (ds.si2 * dssec_f2s ds t + ds.si3 * dssec_f3s ds t) +
    (ds.xi2 * dssec_f2l ds t + ds.xi3 * dssec_f3l ds t)

/-- `pl` of `dssec` (`deep-space.ts` line 282). -/
def dssec_plt (ds : DeepSpaceCommon) (t : ℝ) : ℝ :=
  (ds.sl2 * dssec_f2s ds t + ds.sl3 * dssec_f3s ds t + ds.sl4 * Real.sin (dsZms ds t)) +
    (ds.xl2 * dssec_f2l ds t + ds.xl3 * dssec_f3l ds t + ds.xl4 * Real.sin (dsZml ds t))

/-- `pgh` of `dssec` (`deep-space.ts` line 283). -/
def dssec_pgh (ds : DeepSpaceCommon) (t : ℝ) : ℝ :=
  (ds.sgh2 * dssec_f2s ds t + ds.sgh3 * dssec_f3s ds t + ds.sgh4 * Real.sin (dsZms ds t)) +
    (ds.xgh2 * dssec_f2l ds t + ds.xgh3 * dssec_f3l ds t + ds.xgh4 * Real.sin (dsZml ds t))

/-- `ph` of `dssec` (`deep-space.ts` line 284). -/
def dssec_ph (ds : DeepSpaceCommon) (t : ℝ) : ℝ :=
  (ds.sh2 * dssec_f2s ds t + ds.sh3 * dssec_f3s ds t) +
    (ds.xh2 * dssec_f2l ds t + ds.xh3 * dssec_f3l ds t)

/-- The raw (unwrapped) mean anomaly of `dssec`:
`xmam = mo + ds.dmdt * t + pl` (`deep-space.ts` line 291). -/
def dssec_xmamRaw (ds : DeepSpaceCommon) (t mo : ℝ) : ℝ :=
  mo + ds.dmdt * t + dssec_plt ds t

/-- `dssec` (`deep-space.ts` lines 250-298): secular rates plus
phase-dependent corrections; the mean anomaly is reduced with `% TWOPI`
and shifted by `TWOPI` if negative (lines 294-295). -/
def dssec (ds : DeepSpaceCommon) (t ecco inclo nodeo argpo mo : ℝ) : DsSecOut :=
  let m := jsMod (dssec_xmamRaw ds t mo) TWOPI
  { e := ecco + ds.dedt * t + dssec_pe ds t
    xinc := inclo + ds.didt * t + dssec_pinc ds t
    omgadf := argpo + ds.domdt * t + dssec_pgh ds t
    xnode := nodeo + ds.dnodt * t + dssec_ph ds t
    xmam := if m < 0 then m + TWOPI else m }

/-- Output record of `dsper`. -/
structure DsPerOut where
  em : ℝ
  xinc : ℝ
  omgadf : ℝ
  xnode : ℝ
  xmam : ℝ

/-- `pe` of `dsper` (`deep-space.ts` line 324). -/
def dsper_pe (ds : DeepSpaceCommon) (t : ℝ) : ℝ :=
  1.0e-8 * Real.sin (dsZms ds t) + 0.5e-8 * Real.sin (dsZml ds t)

/-- `pinc` of `dsper` (`deep-space.ts` line 325). -/
def dsper_pinc (ds : DeepSpaceCommon) (t : ℝ) : ℝ := 1.0e-9 * Real.cos (dsZms ds t)

/-- `pl` of `dsper` (`deep-space.ts` line 326). -/
def dsper_plt (ds : DeepSpaceCommon) (t : ℝ) : ℝ := 1.0e-7 * Real.sin (2.0 * dsZms ds t)

/-- `pgh` of `dsper` (`deep-space.ts` line 327). -/
def dsper_pgh (ds : DeepSpaceCommon) (t : ℝ) : ℝ := 1.0e-8 * Real.sin (dsZms ds t)

/-- `ph` of `dsper` (`deep-space.ts` line 328). -/
def dsper_ph (ds : DeepSpaceCommon) (t : ℝ) : ℝ := 0.5e-8 * Real.sin (dsZml ds t)

/-- `dsper` (`deep-space.ts` lines 303-345): add the small periodic
corrections; if the corrected inclination is negative, negate it and
shift node by `+PI` and argument-of-perigee by `-PI` (lines 338-342). -/
def dsper (ds : DeepSpaceCommon) (t em xinc omgadf xnode xmam : ℝ) : DsPerOut :=
  if xinc + dsper_pinc ds t < 0 then
    { em := em + dsper_pe ds t
      xinc := -(xinc + dsper_pinc ds t)
      omgadf := omgadf + dsper_pgh ds t - PI
      xnode := xnode + dsper_ph ds t + PI
      xmam := xmam + dsper_plt ds t }
  else
    { em := em + dsper_pe ds t
      xinc := xinc + dsper_pinc ds t
      omgadf := omgadf + dsper_pgh ds t
      xnode := xnode + dsper_ph ds t
      xmam := xmam + dsper_plt ds t }

/-! ## SDP4 (`sdp4.ts`) -/

/-- SDP4 initialization state (`Sdp4InitState`, `sdp4.ts` lines 16-34). -/
structure Sdp4InitState where
  aodp : ℝ
  xnodp : ℝ
  xmdot : ℝ
  omgdot : ℝ
  xnodot : ℝ
  xnodcf : ℝ
  t2cof : ℝ
  xlcof : ℝ
  aycof : ℝ
  x3thm1 : ℝ
  x1mth2 : ℝ
  x7thm1 : ℝ
  cosio : ℝ
  sinio : ℝ
  betao : ℝ
  betao2 : ℝ
  ds : DeepSpaceCommon

/-- `xlcof` of `sdp4init` (`sdp4.ts` line 79), using `a3ovk2 = -A3OVK2`. -/
def sdp4_xlcofOf (e : OrbitalElements) : ℝ :=
  0.125 * (-1.0 * A3OVK2) * sinioOf e * (3.0 + 5.0 * cosioOf e) / (1.0 + cosioOf e)

/-- `aycof` of `sdp4init` (`sdp4.ts` line 80). -/
def sdp4_aycofOf (e : OrbitalElements) : ℝ := 0.25 * (-1.0 * A3OVK2) * sinioOf e

/-- `xnodcf` of `sdp4init` (`sdp4.ts` line 81). -/
def sdp4_xnodcfOf (e : OrbitalElements) : ℝ :=
  3.5 * betao2Of e * xhdot1Of e * (e.bstar / (1.0 + deloOf e))

/-- `t2cof` of `sdp4init` (`sdp4.ts` line 82). -/
def sdp4_t2cofOf (e : OrbitalElements) : ℝ := 1.5 * (e.bstar / (1.0 + deloOf e))

/-- `sdp4init` (`sdp4.ts` lines 39-114). -/
def sdp4init (e : OrbitalElements) : Sdp4InitState where
  aodp := aodpOf e
  xnodp := xnodpOf e
  xmdot := xmdotOf e
  omgdot := omgdotOf e
  xnodot := xnodotOf e
  xnodcf := sdp4_xnodcfOf e
  t2cof := sdp4_t2cofOf e
  xlcof := sdp4_xlcofOf e
  aycof := sdp4_aycofOf e
  x3thm1 := x3thm1Of e
  x1mth2 := x1mth2Of e
  x7thm1 := x7thm1Of e
  cosio := cosioOf e
  sinio := sinioOf e
  betao := betaoOf e
  betao2 := betao2Of e
  ds := dsinit e.jdsatepoch (xnodpOf e) e.ecco e.inclo e.nodeo e.argpo e.mo

/-! ### SDP4 evaluation (`sdp4.ts` lines 124-279) -/

/-- `xmdf = mo + xmdot * t` (mean elements come from `elements`). -/
def sdp4_xmdf (s : Sdp4InitState) (e : OrbitalElements) (t : ℝ) : ℝ :=
  e.mo + s.xmdot * t

/-- `omgadf = argpo + omgdot * t`. -/
def sdp4_omgadf (s : Sdp4InitState) (e : OrbitalElements) (t : ℝ) : ℝ :=
  e.argpo + s.omgdot * t

/-- `xnode = xnoddf + xnodcf * tsq` where `xnoddf = nodeo + xnodot * t`. -/
def sdp4_xnode (s : Sdp4InitState) (e : OrbitalElements) (t : ℝ) : ℝ :=
  (e.nodeo + s.xnodot * t) + s.xnodcf * (t * t)

/-- `tempa = 1.0 - t2cof * t` (`sdp4.ts` line 141). -/
def sdp4_tempa (s : Sdp4InitState) (t : ℝ) : ℝ := 1.0 - s.t2cof * t

/-- `templ = t2cof * tsq` (`sdp4.ts` line 142). -/
def sdp4_templ (s : Sdp4InitState) (t : ℝ) : ℝ := s.t2cof * (t * t)

/-- The `dssec` call of `sdp4` (`sdp4.ts` line 145), whose inclination
argument is `state.aodp > 0 ? Math.acos(cosio) : 0`. -/
def sdp4_sec (s : Sdp4InitState) (e : OrbitalElements) (t : ℝ) : DsSecOut :=
  dssec s.ds t e.ecco (if 0 < s.aodp then Real.arccos s.cosio else 0)
    (sdp4_xnode s e t) (sdp4_omgadf s e t) (sdp4_xmdf s e t)

/-- The `dsper` call of `sdp4` (`sdp4.ts` line 154). -/
def sdp4_per (s : Sdp4InitState) (e : OrbitalElements) (t : ℝ) : DsPerOut :=
  dsper s.ds t (sdp4_sec s e t).e (sdp4_sec s e t).xinc (sdp4_sec s e t).omgadf
    (sdp4_sec s e t).xnode (sdp4_sec s e t).xmam

/-- The eccentricity after deep-space secular and periodic corrections,
tested by the decay check of `sdp4.ts` line 162. -/
def sdp4_em (s : Sdp4InitState) (e : OrbitalElements) (t : ℝ) : ℝ :=
  (sdp4_per s e t).em

/-- Clamped eccentricity `em = Math.max(em, 1e-6)` (`sdp4.ts` line 173). -/
def sdp4_emc (s : Sdp4InitState) (e : OrbitalElements) (t : ℝ) : ℝ :=
  max (sdp4_em s e t) 1e-6

/-- `a = aodp * tempa * tempa` (`sdp4.ts` line 176). -/
def sdp4_a (s : Sdp4InitState) (t : ℝ) : ℝ := s.aodp * sdp4_tempa s t * sdp4_tempa s t

/-- `xl = xmam + omega + xn + xnodp * templ` (`sdp4.ts` line 179). -/
def sdp4_xl (s : Sdp4InitState) (e : OrbitalElements) (t : ℝ) : ℝ :=
  (sdp4_per s e t).xmam + (sdp4_per s e t).omgadf + (sdp4_per s e t).xnode +
    s.xnodp * sdp4_templ s t

/-- `beta = Math.sqrt(1.0 - em * em)` (`sdp4.ts` line 177). -/
def sdp4_beta (s : Sdp4InitState) (e : OrbitalElements) (t : ℝ) : ℝ :=
  Real.sqrt (1.0 - sdp4_emc s e t * sdp4_emc s e t)

/-- `axn = em * Math.cos(omega)` (`sdp4.ts` line 184). -/
def sdp4_axn (s : Sdp4InitState) (e : OrbitalElements) (t : ℝ) : ℝ :=
  sdp4_emc s e t * Real.cos ((sdp4_per s e t).omgadf)

/-- `temp = 1.0 / (a * beta * beta)` (`sdp4.ts` line 185). -/
def sdp4_lptemp (s : Sdp4InitState) (e : OrbitalElements) (t : ℝ) : ℝ :=
  1.0 / (sdp4_a s t * sdp4_beta s e t * sdp4_beta s e t)

/-- `xlt = xl + xlpNew` (`sdp4.ts` line 188). -/
def sdp4_xlt (s : Sdp4InitState) (e : OrbitalElements) (t : ℝ) : ℝ :=
  sdp4_xl s e t + sdp4_lptemp s e t * s.xlcof * sdp4_axn s e t

/-- `ayn = em * Math.sin(omega) + aynl` (`sdp4.ts` line 189). -/
def sdp4_ayn (s : Sdp4InitState) (e : OrbitalElements) (t : ℝ) : ℝ :=
  sdp4_emc s e t * Real.sin ((sdp4_per s e t).omgadf) + sdp4_lptemp s e t * s.aycof

/-- `capu = (xlt - xn) % TWOPI` (`sdp4.ts` line 192). -/
def sdp4_capu (s : Sdp4InitState) (e : OrbitalElements) (t : ℝ) : ℝ :=
  jsMod (sdp4_xlt s e t - (sdp4_per s e t).xnode) TWOPI

/-- `epw`: the Kepler-loop result (`sdp4.ts` lines 193-206). -/
def sdp4_epw (s : Sdp4InitState) (e : OrbitalElements) (t : ℝ) : ℝ :=
  solveKepler (sdp4_axn s e t) (sdp4_ayn s e t) (sdp4_capu s e t)

/-- `elsq = axn * axn + ayn * ayn` (`sdp4.ts` line 213). -/
def sdp4_elsq (s : Sdp4InitState) (e : OrbitalElements) (t : ℝ) : ℝ :=
  sdp4_axn s e t * sdp4_axn s e t + sdp4_ayn s e t * sdp4_ayn s e t

/-- `pl = a * (1.0 - elsq)` (`sdp4.ts` line 214). -/
def sdp4_pl (s : Sdp4InitState) (e : OrbitalElements) (t : ℝ) : ℝ :=
  sdp4_a s t * (1.0 - sdp4_elsq s e t)

/-- The success-branch state vector of SDP4 (`sdp4.ts` lines 226-271). -/
def sdp4_finalSV (s : Sdp4InitState) (e : OrbitalElements) (t : ℝ) : StateVector :=
  let a := sdp4_a s t
  let axn := sdp4_axn s e t
  let ayn := sdp4_ayn s e t
  let epw := sdp4_epw s e t
  let elsq := sdp4_elsq s e t
  let pl := sdp4_pl s e t
  let xinc := (sdp4_per s e t).xinc
  let xn := (sdp4_per s e t).xnode
  let xnn := XKE / a ^ (1.5 : ℝ)
  let sinInc := Real.sin xinc
  let cosInc := Real.cos xinc
  let sinepw := Real.sin epw
  let cosepw := Real.cos epw
  let ecose := axn * cosepw + ayn * sinepw
  let esine := axn * sinepw - ayn * cosepw
  let r := a * (1.0 - ecose)
  let invr := 1.0 / r
  let rdot := XKE * Real.sqrt a * esine * invr
  let rfdot := XKE * Real.sqrt pl * invr
  let betal := Real.sqrt (1.0 - elsq)
  let temp6 := betal / (1.0 + betal)
  let cosu := invr * (cosepw - axn + ayn * esine * temp6)
  let sinu := invr * (sinepw - ayn - axn * esine * temp6)
  let u := atan2 sinu cosu
  let sin2u := 2.0 * sinu * cosu
  let cos2u := 2.0 * cosu * cosu - 1.0
  let temp7 := 1.0 / pl
  let temp8 := CK2 * temp7
  let temp9 := temp8 * temp7
  let rk := r * (1.0 - 1.5 * temp9 * betal * s.x3thm1) + 0.5 * temp8 * s.x1mth2 * cos2u
  let uk := u - 0.25 * temp9 * s.x7thm1 * sin2u
  let xnodek := xn + 1.5 * temp9 * cosInc * sin2u
  let xinck := xinc + 1.5 * temp9 * cosInc * sinInc * cos2u
  let rdotk := rdot - xnn * temp8 * s.x1mth2 * sin2u
  let rfdotk := rfdot + xnn * temp8 * (s.x1mth2 * cos2u + 1.5 * s.x3thm1)
  let sinuk := Real.sin uk
  let cosuk := Real.cos uk
  let sinik := Real.sin xinck
  let cosik := Real.cos xinck
  let sinnok := Real.sin xnodek
  let cosnok := Real.cos xnodek
  let xmx := -sinnok * cosik
  let xmy := cosnok * cosik
  let ux := xmx * sinuk + cosnok * cosuk
  let uy := xmy * sinuk + sinnok * cosuk
  let uz := sinik * sinuk
  let vx := xmx * cosuk - cosnok * sinuk
  let vy := xmy * cosuk - sinnok * sinuk
  let vz := sinik * cosuk
  { x := rk * ux * XKMPER
    y := rk * uy * XKMPER
    z := rk * uz * XKMPER
    xdot := (rdotk * ux + rfdotk * vx) * XKMPER / 60.0
    ydot := (rdotk * uy + rfdotk * vy) * XKMPER / 60.0
    zdot := (rdotk * uz + rfdotk * vz) * XKMPER / 60.0 }

/-- The SDP4 evaluation body (`sdp4.ts` lines 124-279). -/
def sdp4Run (s : Sdp4InitState) (e : OrbitalElements) (t : ℝ) : PropagationResult :=
  if 1 ≤ sdp4_em s e t ∨ sdp4_em s e t < -0.001 then
    { state := zeroSV, tsince := t, algorithm := Alg.SDP4, error := true,
      errorMessage := some ("Satellite has decayed") }
  else if sdp4_pl s e t < 0 then
    { state := zeroSV, tsince := t, algorithm := Alg.SDP4, error := true,
      errorMessage := some ("Semi-latus rectum is negative") }
  else
    { state := sdp4_finalSV s e t, tsince := t, algorithm := Alg.SDP4,
      error := false, errorMessage := none }

/-- `sdp4(elements, tsince, initState?)` (`sdp4.ts` line 125). -/
def sdp4 (e : OrbitalElements) (tsince : ℝ)
    (initState : Option Sdp4InitState) : PropagationResult :=
  sdp4Run (initState.getD (sdp4init e)) e tsince

/-! ## SDP8 (`sdp8.ts`)

`sdp8init` repeats the recovery block, the secular-rate block and the
`s`/`qoms2t` selection of `sgp4init`/`sdp4init` verbatim, so the shared
`...Of` functions above embed those lines; only the drag block
(`sdp8.ts` lines 103-109) is specific. -/

/-- SDP8 initialization state (`Sdp8InitState`, `sdp8.ts` lines 16-34). -/
structure Sdp8InitState where
  aodp : ℝ
  xnodp : ℝ
  xmdot : ℝ
  omgdot : ℝ
  xnodot : ℝ
  pp : ℝ
  gamma : ℝ
  xlcof : ℝ
  aycof : ℝ
  x3thm1 : ℝ
  x1mth2 : ℝ
  x7thm1 : ℝ
  cosio : ℝ
  sinio : ℝ
  eta : ℝ
  edot : ℝ
  ds : DeepSpaceCommon

/-- `c1` of `sdp8init` (`sdp8.ts` lines 104-105). -/
def sdp8_c1Of (e : OrbitalElements) : ℝ :=
  0.5 * e.bstar * coef1Of e * xnodpOf e * aodpOf e *
    (1.0 + 2.5 * etasqOf e + eetaOf e * (4.0 + etasqOf e))

/-- `edot = -c1 * (1.0 - ecco)` (`sdp8.ts` line 109). -/
def sdp8_edotOf (e : OrbitalElements) : ℝ := -sdp8_c1Of e * (1.0 - e.ecco)

/-- `sdp8init` (`sdp8.ts` lines 39-146). -/
def sdp8init (e : OrbitalElements) : Sdp8InitState where
  aodp := aodpOf e
  xnodp := xnodpOf e
  xmdot := xmdotOf e
  omgdot := omgdotOf e
  xnodot := xnodotOf e
  pp := aodpOf e * betao2Of e
  gamma := e.bstar / (2.0 * (aodpOf e * betao2Of e))
  xlcof := sdp4_xlcofOf e
  aycof := sdp4_aycofOf e
  x3thm1 := x3thm1Of e
  x1mth2 := x1mth2Of e
  x7thm1 := x7thm1Of e
  cosio := cosioOf e
  sinio := sinioOf e
  eta := etaOf e
  edot := sdp8_edotOf e
  ds := dsinit e.jdsatepoch (xnodpOf e) e.ecco e.inclo e.nodeo e.argpo e.mo

/-! ### SDP8 evaluation (`sdp8.ts` lines 156-308) -/

/-- `xmdf = mo + xmdot * t`. -/
def sdp8_xmdf (s : Sdp8InitState) (e : OrbitalElements) (t : ℝ) : ℝ :=
  e.mo + s.xmdot * t

/-- `omgadf = argpo + omgdot * t`. -/
def sdp8_omgadf (s : Sdp8InitState) (e : OrbitalElements) (t : ℝ) : ℝ :=
  e.argpo + s.omgdot * t

/-- `xnoddf = nodeo + xnodot * t`. -/
def sdp8_xnoddf (s : Sdp8InitState) (e : OrbitalElements) (t : ℝ) : ℝ :=
  e.nodeo + s.xnodot * t

/-- The `dssec` call of `sdp8` (`sdp8.ts` line 173), with inclination
argument `Math.acos(cosio)`. -/
def sdp8_sec (s : Sdp8InitState) (e : OrbitalElements) (t : ℝ) : DsSecOut :=
  dssec s.ds t e.ecco (Real.arccos s.cosio) (sdp8_xnoddf s e t)
    (sdp8_omgadf s e t) (sdp8_xmdf s e t)

/-- The `dsper` call of `sdp8` (`sdp8.ts` line 182), on the secular
output with the extra `edot * t` eccentricity drift of line 175. -/
def sdp8_per (s : Sdp8InitState) (e : OrbitalElements) (t : ℝ) : DsPerOut :=
  dsper s.ds t ((sdp8_sec s e t).e + s.edot * t) (sdp8_sec s e t).xinc
    (sdp8_sec s e t).omgadf (sdp8_sec s e t).xnode (sdp8_sec s e t).xmam

/-- The eccentricity tested by the decay check of `sdp8.ts` line 190. -/
def sdp8_em (s : Sdp8InitState) (e : OrbitalElements) (t : ℝ) : ℝ :=
  (sdp8_per s e t).em

/-- Clamped eccentricity (`sdp8.ts` line 201). -/
def sdp8_emc (s : Sdp8InitState) (e : OrbitalElements) (t : ℝ) : ℝ :=
  max (sdp8_em s e t) 1e-6

/-- `xl = xmam + omega + xn` (`sdp8.ts` line 207). -/
def sdp8_xl (s : Sdp8InitState) (e : OrbitalElements) (t : ℝ) : ℝ :=
  (sdp8_per s e t).xmam + (sdp8_per s e t).omgadf + (sdp8_per s e t).xnode

/-- `beta = Math.sqrt(1.0 - em * em)` (`sdp8.ts` line 205). -/
def sdp8_beta (s : Sdp8InitState) (e : OrbitalElements) (t : ℝ) : ℝ :=
  Real.sqrt (1.0 - sdp8_emc s e t * sdp8_emc s e t)

/-- `axn = em * Math.cos(omega)` (`sdp8.ts` line 212). -/
def sdp8_axn (s : Sdp8InitState) (e : OrbitalElements) (t : ℝ) : ℝ :=
  sdp8_emc s e t * Real.cos ((sdp8_per s e t).omgadf)

/-- `temp = 1.0 / (a * beta * beta)` with `a = aodp` (`sdp8.ts` lines 204, 213). -/
def sdp8_lptemp (s : Sdp8InitState) (e : OrbitalElements) (t : ℝ) : ℝ :=
  1.0 / (s.aodp * sdp8_beta s e t * sdp8_beta s e t)

/-- `xlt = xl + xlpNew` (`sdp8.ts` line 216). -/
def sdp8_xlt (s : Sdp8InitState) (e : OrbitalElements) (t : ℝ) : ℝ :=
  sdp8_xl s e t + sdp8_lptemp s e t * s.xlcof * sdp8_axn s e t

/-- `ayn = em * Math.sin(omega) + aynl` (`sdp8.ts` line 217). -/
def sdp8_ayn (s : Sdp8InitState) (e : OrbitalElements) (t : ℝ) : ℝ :=
  sdp8_emc s e t * Real.sin ((sdp8_per s e t).omgadf) + sdp8_lptemp s e t * s.aycof

/-- `capu = (xlt - xn) % TWOPI` (`sdp8.ts` line 221). -/
def sdp8_capu (s : Sdp8InitState) (e : OrbitalElements) (t : ℝ) : ℝ :=
  jsMod (sdp8_xlt s e t - (sdp8_per s e t).xnode) TWOPI

/-- `epw`: the Kepler-loop result (`sdp8.ts` lines 222-235). -/
def sdp8_epw (s : Sdp8InitState) (e : OrbitalElements) (t : ℝ) : ℝ :=
  solveKepler (sdp8_axn s e t) (sdp8_ayn s e t) (sdp8_capu s e t)

/-- `elsq = axn * axn + ayn * ayn` (`sdp8.ts` line 242). -/
def sdp8_elsq (s : Sdp8InitState) (e : OrbitalElements) (t : ℝ) : ℝ :=
  sdp8_axn s e t * sdp8_axn s e t + sdp8_ayn s e t * sdp8_ayn s e t

/-- `pl = a * (1.0 - elsq)` with `a = aodp` (`sdp8.ts` line 243). -/
def sdp8_pl (s : Sdp8InitState) (e : OrbitalElements) (t : ℝ) : ℝ :=
  s.aodp * (1.0 - sdp8_elsq s e t)

/-- The success-branch state vector of SDP8 (`sdp8.ts` lines 255-300). -/
def sdp8_finalSV (s : Sdp8InitState) (e : OrbitalElements) (t : ℝ) : StateVector :=
  let a := s.aodp
  let axn := sdp8_axn s e t
  let ayn := sdp8_ayn s e t
  let epw := sdp8_epw s e t
  let elsq := sdp8_elsq s e t
  let pl := sdp8_pl s e t
  let xinc := (sdp8_per s e t).xinc
  let xn := (sdp8_per s e t).xnode
  let xnn := XKE / a ^ (1.5 : ℝ)
  let sinInc := Real.sin xinc
  let cosInc := Real.cos xinc
  let sinepw := Real.sin epw
  let cosepw := Real.cos epw
  let ecose := axn * cosepw + ayn * sinepw
  let esine := axn * sinepw - ayn * cosepw
  let r := a * (1.0 - ecose)
  let invr := 1.0 / r
  let rdot := XKE * Real.sqrt a * esine * invr
  let rfdot := XKE * Real.sqrt pl * invr
  let betal := Real.sqrt (1.0 - elsq)
  let temp6 := betal / (1.0 + betal)
  let cosu := invr * (cosepw - axn + ayn * esine * temp6)
  let sinu := invr * (sinepw - ayn - axn * esine * temp6)
  let u := atan2 sinu cosu
  let sin2u := 2.0 * sinu * cosu
  let cos2u := 2.0 * cosu * cosu - 1.0
  let temp7 := 1.0 / pl
  let temp8 := CK2 * temp7
  let temp9 := temp8 * temp7
  let rk := r * (1.0 - 1.5 * temp9 * betal * s.x3thm1) + 0.5 * temp8 * s.x1mth2 * cos2u
  let uk := u - 0.25 * temp9 * s.x7thm1 * sin2u
  let xnodek := xn + 1.5 * temp9 * cosInc * sin2u
  let xinck := xinc + 1.5 * temp9 * cosInc * sinInc * cos2u
  let rdotk := rdot - xnn * temp8 * s.x1mth2 * sin2u
  let rfdotk := rfdot + xnn * temp8 * (s.x1mth2 * cos2u + 1.5 * s.x3thm1)
  let sinuk := Real.sin uk
  let cosuk := Real.cos uk
  let sinik := Real.sin xinck
  let cosik := Real.cos xinck
  let sinnok := Real.sin xnodek
  let cosnok := Real.cos xnodek
  let xmx := -sinnok * cosik
  let xmy := cosnok * cosik
  let ux := xmx * sinuk + cosnok * cosuk
  let uy := xmy * sinuk + sinnok * cosuk
  let uz := sinik * sinuk
  let vx := xmx * cosuk - cosnok * sinuk
  let vy := xmy * cosuk - sinnok * sinuk
  let vz := sinik * cosuk
  { x := rk * ux * XKMPER
    y := rk * uy * XKMPER
    z := rk * uz * XKMPER
    xdot := (rdotk * ux + rfdotk * vx) * XKMPER / 60.0
    ydot := (rdotk * uy + rfdotk * vy) * XKMPER / 60.0
    zdot := (rdotk * uz + rfdotk * vz) * XKMPER / 60.0 }

/-- The SDP8 evaluation body (`sdp8.ts` lines 156-308). -/
def sdp8Run (s : Sdp8InitState) (e : OrbitalElements) (t : ℝ) : PropagationResult :=
  if 1 ≤ sdp8_em s e t ∨ sdp8_em s e t < -0.001 then
    { state := zeroSV, tsince := t, algorithm := Alg.SDP8, error := true,
      errorMessage := some ("Satellite has decayed") }
  else if sdp8_pl s e t < 0 then
    { state := zeroSV, tsince := t, algorithm := Alg.SDP8, error := true,
      errorMessage := some ("Semi-latus rectum is negative") }
  else
    { state := sdp8_finalSV s e t, tsince := t, algorithm := Alg.SDP8,
      error := false, errorMessage := none }

/-- `sdp8(elements, tsince, initState?)` (`sdp8.ts` line 157). -/
def sdp8 (e : OrbitalElements) (tsince : ℝ)
    (initState : Option Sdp8InitState) : PropagationResult :=
  sdp8Run (initState.getD (sdp8init e)) e tsince

/-! ## Dispatcher (`index.ts` lines 143-164) -/

/-- `getSatelliteType(no)`: period `TWOPI / no` minutes, near-Earth iff
strictly below `DEEP_SPACE_THRESHOLD = 225`. -/
def getSatelliteType (no : ℝ) : SatelliteType :=
  if TWOPI / no < DEEP_SPACE_THRESHOLD then SatelliteType.nearEarth
  else SatelliteType.deepSpace

/-- `propagate(elements, tsince)`: SGP4 for near-Earth, SDP4 for
deep-space. -/
def propagate (e : OrbitalElements) (tsince : ℝ) : PropagationResult :=
  match getSatelliteType e.no with
  | SatelliteType.nearEarth => sgp4 e tsince none
  | SatelliteType.deepSpace => sdp4 e tsince none

/-! ## Concrete inputs used by counterexamples and witnesses -/

/-- An equatorial circular element set whose encoded mean motion is
`XKE / 1.386³` rad/min: encoded period ≈ 224.95 min, recovered period
≈ 225.05 min — it straddles the 225-minute threshold. -/
def elemsPeriodBoundary : OrbitalElements where
  satnum := 0
  epochYear := 0
  epochDay := 0
  jdsatepoch := 0
  ndot := 0
  nddot := 0
  bstar := 0
  inclo := 0
  nodeo := 0
  ecco := 0
  argpo := 0
  mo := 0
  no := XKE / (1.386 : ℝ) ^ (3 : ℕ)
  revnum := 0

/-- An equatorial circular element set whose recovered perigee altitude
is ≈ 207 km: above the 156 km density threshold but below the 220 km
`isimp` threshold. -/
def elemsPerige207 : OrbitalElements where
  satnum := 0
  epochYear := 0
  epochDay := 0
  jdsatepoch := 0
  ndot := 0
  nddot := 0
  bstar := 0
  inclo := 0
  nodeo := 0
  ecco := 0
  argpo := 0
  mo := 0
  no := XKE / (1.0156 : ℝ) ^ (3 : ℕ)
  revnum := 0

/-- An all-zero deep-space common block, used to exercise `dsper` at a
concrete input. -/
def dsZero : DeepSpaceCommon where
  thgr := 0
  xnq := 0
  xqncl := 0
  omegaq := 0
  zmol := 0
  zmos := 0
  peo := 0
  pinco := 0
  plo := 0
  pgho := 0
  pho := 0
  se2 := 0
  se3 := 0
  si2 := 0
  si3 := 0
  sl2 := 0
  sl3 := 0
  sl4 := 0
  sgh2 := 0
  sgh3 := 0
  sgh4 := 0
  sh2 := 0
  sh3 := 0
  ee2 := 0
  e3 := 0
  xi2 := 0
  xi3 := 0
  xl2 := 0
  xl3 := 0
  xl4 := 0
  xgh2 := 0
  xgh3 := 0
  xgh4 := 0
  xh2 := 0
  xh3 := 0
  d2201 := 0
  d2211 := 0
  d3210 := 0
  d3222 := 0
  d4410 := 0
  d4422 := 0
  d5220 := 0
  d5232 := 0
  d5421 := 0
  d5433 := 0
  del1 := 0
  del2 := 0
  del3 := 0
  xlamo := 0
  xfact := 0
  xli := 0
  xni := 0
  atime := 0
  iresfl := false
  isynfl := false
  dedt := 0
  didt := 0
  dmdt := 0
  domdt := 0
  dnodt := 0

/-- An all-zero SGP4 initialization state (its `a = 0 < 0.95` puts every
evaluation on the decay branch), used to exercise the error path at a
concrete input. -/
def sgp4ZeroState : Sgp4InitState where
  method := "n"
  isimp := 0
  aycof := 0
  con41 := 0
  cc1 := 0
  cc4 := 0
  cc5 := 0
  d2 := 0
  d3 := 0
  d4 := 0
  delmo := 0
  eta := 0
  argpdot := 0
  omgcof := 0
  sinmao := 0
  t := 0
  t2cof := 0
  t3cof := 0
  t4cof := 0
  t5cof := 0
  x1mth2 := 0
  x7thm1 := 0
  mdot := 0
  nodedot := 0
  xlcof := 0
  xmcof := 0
  nodecf := 0
  irez := 0
  d2201 := 0
  d2211 := 0
  d3210 := 0
  d3222 := 0
  d4410 := 0
  d4422 := 0
  d5220 := 0
  d5232 := 0
  d5421 := 0
  d5433 := 0
  dedt := 0
  del1 := 0
  del2 := 0
  del3 := 0
  didt := 0
  dmdt := 0
  dnodt := 0
  domdt := 0
  e3 := 0
  ee2 := 0
  peo := 0
  pgho := 0
  pho := 0
  pinco := 0
  plo := 0
  se2 := 0
  se3 := 0
  sgh2 := 0
  sgh3 := 0
  sgh4 := 0
  sh2 := 0
  sh3 := 0
  si2 := 0
  si3 := 0
  sl2 := 0
  sl3 := 0
  sl4 := 0
  gsto := 0
  xfact := 0
  xgh2 := 0
  xgh3 := 0
  xgh4 := 0
  xh2 := 0
  xh3 := 0
  xi2 := 0
  xi3 := 0
  xl2 := 0
  xl3 := 0
  xl4 := 0
  xlamo := 0
  zmol := 0
  zmos := 0
  atime := 0
  xli := 0
  xni := 0
  a := 0
  altp := 0
  alta := 0
  epochdays := 0
  jdsatepoch := 0
  nddot := 0
  ndot := 0
  bstar := 0
  rcse := 0
  inclo := 0
  nodeo := 0
  ecco := 0
  argpo := 0
  mo := 0
  no := 0
  init := true

/-! ## Helper lemmas -/

/-- `jsMod x d` differs from `x` by an integer multiple of `d`. -/
theorem jsMod_int_sub (x d : ℝ) : ∃ k : ℤ, jsMod x d = x - d * k :=
  ⟨jsTrunc (x / d), rfl⟩

/-- For positive `d`, the JavaScript remainder lies in `(-d, d)`. -/
theorem jsMod_bounds {d : ℝ} (hd : 0 < d) (x : ℝ) :
    -d < jsMod x d ∧ jsMod x d < d := by
  have hdx : d * (x / d) = x := by field_simp
  unfold jsMod jsTrunc
  by_cases h : 0 ≤ x / d
  · rw [if_pos h]
    have h1 : ((⌊x / d⌋ : ℤ) : ℝ) ≤ x / d := Int.floor_le _
    have h2 : x / d < ((⌊x / d⌋ : ℤ) : ℝ) + 1 := Int.lt_floor_add_one _
    have e1 := mul_le_mul_of_nonneg_left h1 hd.le
    have e2 := mul_lt_mul_of_pos_left h2 hd
    constructor <;> nlinarith
  · rw [if_neg h]
    have h1 : x / d ≤ ((⌈x / d⌉ : ℤ) : ℝ) := Int.le_ceil _
    have h2 : ((⌈x / d⌉ : ℤ) : ℝ) < x / d + 1 := Int.ceil_lt_add_one _
    have e1 := mul_le_mul_of_nonneg_left h1 hd.le
    have e2 := mul_lt_mul_of_pos_left h2 hd
    constructor <;> nlinarith

/-- `TWOPI` is positive. -/
theorem twoPi_pos : 0 < TWOPI := by
  unfold TWOPI PI
  positivity

/-- C9: for every input to the deep-space secular step, the returned
eccentricity, inclination, argument-of-perigee and node are the starting
values plus the constant-rate drift `rate × t` plus the phase-dependent
correction, with no wrapping, while the returned mean anomaly is the
similarly-updated raw value wrapped into `[0, 2π)`. -/
theorem dssec_secular_updates_and_wrap (ds : DeepSpaceCommon)
    (t ecco inclo nodeo argpo mo : ℝ) :
    (dssec ds t ecco inclo nodeo argpo mo).e = ecco + ds.dedt * t + dssec_pe ds t ∧
    (dssec ds t ecco inclo nodeo argpo mo).xinc = inclo + ds.didt * t + dssec_pinc ds t ∧
    (dssec ds t ecco inclo nodeo argpo mo).omgadf = argpo + ds.domdt * t + dssec_pgh ds t ∧
    (dssec ds t ecco inclo nodeo argpo mo).xnode = nodeo + ds.dnodt * t + dssec_ph ds t ∧
    0 ≤ (dssec ds t ecco inclo nodeo argpo mo).xmam ∧
    (dssec ds t ecco inclo nodeo argpo mo).xmam < TWOPI ∧
    ∃ k : ℤ, (dssec ds t ecco inclo nodeo argpo mo).xmam =
      dssec_xmamRaw ds t mo + TWOPI * k := by
  have hb := jsMod_bounds twoPi_pos (dssec_xmamRaw ds t mo)
  obtain ⟨k0, hk0⟩ := jsMod_int_sub (dssec_xmamRaw ds t mo) TWOPI
  refine ⟨rfl, rfl, rfl, rfl, ?_, ?_, ?_⟩
  · show 0 ≤ (if jsMod (dssec_xmamRaw ds t mo) TWOPI < 0 then
      jsMod (dssec_xmamRaw ds t mo) TWOPI + TWOPI else jsMod (dssec_xmamRaw ds t mo) TWOPI)
    split_ifs with h
    · linarith [hb.1]
    · linarith [not_lt.mp h]
  · show (if jsMod (dssec_xmamRaw ds t mo) TWOPI < 0 then
      jsMod (dssec_xmamRaw ds t mo) TWOPI + TWOPI else jsMod (dssec_xmamRaw ds t mo) TWOPI) < TWOPI
    split_ifs with h
    · linarith [h]
    · exact hb.2
  · show ∃ k : ℤ, (if jsMod (dssec_xmamRaw ds t mo) TWOPI < 0 then
      jsMod (dssec_xmamRaw ds t mo) TWOPI + TWOPI else jsMod (dssec_xmamRaw ds t mo) TWOPI) =
      dssec_xmamRaw ds t mo + TWOPI * k
    split_ifs with h
    · refine ⟨1 - k0, ?_⟩
      rw [hk0]
      push_cast
      ring
    · refine ⟨-k0, ?_⟩
      rw [hk0]
      push_cast
      ring

/-- C8: the deep-space periodic step returns a non-negative inclination;
when the periodically-corrected inclination would be negative it is
negated and the node and argument-of-perigee are shifted by `+π` and
`-π` respectively, and otherwise all five elements carry exactly the
small periodic corrections. -/
theorem dsper_retrograde_reflection (ds : DeepSpaceCommon)
    (t em xinc omgadf xnode xmam : ℝ) :
    0 ≤ (dsper ds t em xinc omgadf xnode xmam).xinc ∧
    (xinc + dsper_pinc ds t < 0 →
      dsper ds t em xinc omgadf xnode xmam =
        ⟨em + dsper_pe ds t, -(xinc + dsper_pinc ds t),
          omgadf + dsper_pgh ds t - PI, xnode + dsper_ph ds t + PI,
          xmam + dsper_plt ds t⟩) ∧
    (0 ≤ xinc + dsper_pinc ds t →
      dsper ds t em xinc omgadf xnode xmam =
        ⟨em + dsper_pe ds t, xinc + dsper_pinc ds t,
          omgadf + dsper_pgh ds t, xnode + dsper_ph ds t,
          xmam + dsper_plt ds t⟩) := by
  unfold dsper
  split_ifs with h
  · refine ⟨?_, fun _ => rfl, fun h' => absurd h (not_lt.mpr h')⟩
    show 0 ≤ -(xinc + dsper_pinc ds t)
    linarith
  · refine ⟨?_, fun h' => absurd h' h, fun _ => rfl⟩
    show 0 ≤ xinc + dsper_pinc ds t
    exact not_lt.mp h

/-- Witness for C8: with the all-zero common block at `t = 0` and
inclination `-1`, the periodic correction leaves the inclination
negative, so it is reflected and the node is shifted by `+π`. -/
theorem dsper_retrograde_reflection_witness :
    (dsper dsZero 0 0 (-1) 0 0 0).xinc = -((-1) + dsper_pinc dsZero 0) ∧
    (dsper dsZero 0 0 (-1) 0 0 0).xnode = 0 + dsper_ph dsZero 0 + PI := by
  have hneg : (-1 : ℝ) + dsper_pinc dsZero 0 < 0 := by
    norm_num [dsper_pinc, dsZms, dsZero, ZNS]
  have h := (dsper_retrograde_reflection dsZero 0 0 (-1) 0 0 0).2.1 hneg
  rw [h]
  exact ⟨rfl, rfl⟩

/-- C7: `dsinit` sets both resonance flags exactly when the orbital
period `2π/xnodp` is at least 1200 minutes, sets the resonant flag but
not the synchronous flag exactly when the period lies in the 600-800
minute band, leaves both false otherwise, and seeds the integrator
(`xli = mo`, `xni = xnodp`, `atime = 0`) whenever the resonant flag is
set. -/
theorem dsinit_resonance_flags (epoch xnodp ecco inclo nodeo argpo mo : ℝ) :
    ((dsinit epoch xnodp ecco inclo nodeo argpo mo).isynfl = true ↔
      1200.0 ≤ TWOPI / xnodp) ∧
    ((dsinit epoch xnodp ecco inclo nodeo argpo mo).iresfl = true ↔
      (1200.0 ≤ TWOPI / xnodp ∨ (600.0 ≤ TWOPI / xnodp ∧ TWOPI / xnodp ≤ 800.0))) ∧
    ((dsinit epoch xnodp ecco inclo nodeo argpo mo).iresfl = true →
      (dsinit epoch xnodp ecco inclo nodeo argpo mo).xli = mo ∧
      (dsinit epoch xnodp ecco inclo nodeo argpo mo).xni = xnodp ∧
      (dsinit epoch xnodp ecco inclo nodeo argpo mo).atime = 0) := by
  by_cases h1 : (1200.0 : ℝ) ≤ TWOPI / xnodp
  · simp [dsinit, h1]
  · by_cases h2 : (600.0 : ℝ) ≤ TWOPI / xnodp ∧ TWOPI / xnodp ≤ 800.0
    · simp [dsinit, h1, h2]
    · simp [dsinit, h1, h2]

/-- Witness for C7: a 1440-minute (24-hour) orbit is flagged resonant
and synchronous and has its integrator seeded with the epoch mean
anomaly. -/
theorem dsinit_resonance_flags_witness :
    (dsinit 0 (TWOPI / 1440.0) 0 0 0 0 5).iresfl = true ∧
    (dsinit 0 (TWOPI / 1440.0) 0 0 0 0 5).xli = 5 := by
  have hperiod : TWOPI / (TWOPI / 1440.0) = 1440.0 := by
    have h2 : TWOPI ≠ 0 := ne_of_gt twoPi_pos
    field_simp
  have h12 : (1200.0 : ℝ) ≤ TWOPI / (TWOPI / 1440.0) := by
    rw [hperiod]
    norm_num
  have h := dsinit_resonance_flags 0 (TWOPI / 1440.0) 0 0 0 0 5
  have hres : (dsinit 0 (TWOPI / 1440.0) 0 0 0 0 5).iresfl = true :=
    (h.2.1).mpr (Or.inl h12)
  exact ⟨hres, ((h.2.2) hres).1⟩

/-- Every clamped Newton step of the Kepler loop has magnitude at most
0.95. -/
theorem kepStep_le (axn ayn capu x : ℝ) : |kepStep axn ayn capu x| ≤ 0.95 := by
  simp only [kepStep]
  split_ifs with h h2
  · rw [abs_le]
    constructor <;> norm_num
  · rw [abs_le]
    constructor <;> norm_num
  · linarith [not_le.mp h]

/-- The Kepler loop moves its iterate by at most `n * 0.95` over `n`
remaining iterations. -/
theorem solveKeplerAux_dist (axn ayn capu : ℝ) :
    ∀ (n : ℕ) (x : ℝ), |solveKeplerAux axn ayn capu n x - x| ≤ n * 0.95 := by
  intro n
  induction n with
  | zero =>
    intro x
    simp [solveKeplerAux]
  | succ n ih =>
    intro x
    have hcanc : x + kepStep axn ayn capu x - x = kepStep axn ayn capu x :=
      add_sub_cancel_left x _
    have hs := kepStep_le axn ayn capu x
    have hn : (0 : ℝ) ≤ (n : ℝ) := Nat.cast_nonneg n
    simp only [solveKeplerAux]
    split_ifs with hbr
    · rw [hcanc]
      push_cast
      nlinarith
    · have ihx := ih (x + kepStep axn ayn capu x)
      calc |solveKeplerAux axn ayn capu n (x + kepStep axn ayn capu x) - x|
          ≤ |solveKeplerAux axn ayn capu n (x + kepStep axn ayn capu x) -
              (x + kepStep axn ayn capu x)| + |x + kepStep axn ayn capu x - x| :=
            abs_sub_le _ _ _
        _ ≤ (n : ℝ) * 0.95 + 0.95 := by
            rw [hcanc]
            exact add_le_add ihx hs
        _ = ((n + 1 : ℕ) : ℝ) * 0.95 := by
            push_cast
            ring

/-- C3: for every input to the Kepler-solver loop with `axn² + ayn² < 1`,
every applied Newton step is clamped to magnitude at most 0.95, and the
returned angle differs from the seed `capu` by at most `10 × 0.95` —
the loop always returns a bounded (finite) angle with no failure path.
The definition `solveKepler` performs exactly 10 fueled iterations,
stopping early once the step magnitude drops below `1e-12`. -/
theorem kepler_loop_clamped_bounded (axn ayn capu : ℝ)
    (h : axn ^ 2 + ayn ^ 2 < 1) :
    (∀ x, |kepStep axn ayn capu x| ≤ 0.95) ∧
    |solveKepler axn ayn capu - capu| ≤ 9.5 := by
  refine ⟨fun x => kepStep_le axn ayn capu x, ?_⟩
  have h10 := solveKeplerAux_dist axn ayn capu 10 capu
  unfold solveKepler
  calc |solveKeplerAux axn ayn capu 10 capu - capu| ≤ (10 : ℕ) * 0.95 := h10
    _ ≤ 9.5 := by norm_num

/-- Witness for C3 at `axn = ayn = 0`, `capu = 1`. -/
theorem kepler_loop_clamped_bounded_witness :
    (0 : ℝ) ^ 2 + 0 ^ 2 < 1 ∧ |solveKepler 0 0 1 - 1| ≤ 9.5 :=
  ⟨by norm_num, (kepler_loop_clamped_bounded 0 0 1 (by norm_num)).2⟩

/-- C6: evaluating with a pre-computed initialization state obtained by
initializing once from the same elements is identical to evaluating
without one (which initializes internally), for SGP4 and SDP4 alike. -/
theorem evaluate_with_precomputed_init_state_eq (e : OrbitalElements) (t : ℝ) :
    sgp4 e t (some (sgp4init e)) = sgp4 e t none ∧
    sdp4 e t (some (sdp4init e)) = sdp4 e t none :=
  ⟨rfl, rfl⟩

/-- C4: SGP4 evaluation reports an error exactly when the
secularly-updated eccentricity leaves `[-0.001, 1)` or the scaled
semi-major axis drops below 0.95, or the semi-latus rectum
`a (1 - axn² - ayn²)` is negative; the decay conditions yield the
message "Satellite has decayed", the semi-latus rectum condition the
message "Semi-latus rectum is negative", and every error returns the
all-zero state vector (the evaluation is total — no exceptions). -/
theorem sgp4_error_conditions (s : Sgp4InitState) (t : ℝ) :
    ((sgp4Run s t).error = true ↔
      ((sgp4_a s t < 0.95 ∨ 1 ≤ sgp4_e s t ∨ sgp4_e s t < -0.001) ∨
        sgp4_pl s t < 0)) ∧
    ((sgp4_a s t < 0.95 ∨ 1 ≤ sgp4_e s t ∨ sgp4_e s t < -0.001) →
      (sgp4Run s t).errorMessage = some ("Satellite has decayed") ∧
      (sgp4Run s t).state = zeroSV) ∧
    (¬(sgp4_a s t < 0.95 ∨ 1 ≤ sgp4_e s t ∨ sgp4_e s t < -0.001) →
      sgp4_pl s t < 0 →
      (sgp4Run s t).errorMessage = some ("Semi-latus rectum is negative") ∧
      (sgp4Run s t).state = zeroSV) ∧
    ((sgp4Run s t).error = false → (sgp4Run s t).errorMessage = none) := by
  by_cases h1 : sgp4_a s t < 0.95 ∨ 1 ≤ sgp4_e s t ∨ sgp4_e s t < -0.001
  · refine ⟨?_, fun _ => ?_, fun hn => absurd h1 hn, ?_⟩ <;>
      simp [sgp4Run, h1]
  · by_cases h2 : sgp4_pl s t < 0
    · refine ⟨?_, fun hd => absurd hd h1, fun _ _ => ?_, ?_⟩ <;>
        simp [sgp4Run, h1, h2]
    · refine ⟨?_, fun hd => absurd hd h1, fun _ hp => absurd hp h2, fun _ => ?_⟩ <;>
        simp [sgp4Run, h1, h2]

/-- Witness for C4: the all-zero initialization state has scaled
semi-major axis `0 < 0.95`, so evaluation at `t = 0` reports decay with
a zero state vector. -/
theorem sgp4_error_conditions_witness :
    (sgp4Run sgp4ZeroState 0).errorMessage = some ("Satellite has decayed") ∧
    (sgp4Run sgp4ZeroState 0).state = zeroSV := by
  have ha : sgp4_a sgp4ZeroState 0 < 0.95 := by
    norm_num [sgp4_a, sgp4ZeroState]
  exact (sgp4_error_conditions sgp4ZeroState 0).2.1 (Or.inl ha)

/-- C10: the deep-space evaluators SDP4 and SDP8 report "Satellite has
decayed" exactly when the eccentricity after the deep-space secular and
periodic corrections is at least 1 or below -0.001 — the condition does
not involve the semi-major axis, so a deep-space evaluation never
reports decay for a low semi-major axis alone. -/
theorem deep_space_decay_condition (s4 : Sdp4InitState) (s8 : Sdp8InitState)
    (e : OrbitalElements) (t : ℝ) :
    ((sdp4Run s4 e t).errorMessage = some ("Satellite has decayed") ↔
      (1 ≤ sdp4_em s4 e t ∨ sdp4_em s4 e t < -0.001)) ∧
    ((sdp8Run s8 e t).errorMessage = some ("Satellite has decayed") ↔
      (1 ≤ sdp8_em s8 e t ∨ sdp8_em s8 e t < -0.001)) := by
  constructor
  · by_cases h1 : 1 ≤ sdp4_em s4 e t ∨ sdp4_em s4 e t < -0.001
    · simp [sdp4Run, h1]
    · by_cases h2 : sdp4_pl s4 e t < 0 <;> simp [sdp4Run, h1, h2]
  · by_cases h1 : 1 ≤ sdp8_em s8 e t ∨ sdp8_em s8 e t < -0.001
    · simp [sdp8Run, h1]
    · by_cases h2 : sdp8_pl s8 e t < 0 <;> simp [sdp8Run, h1, h2]

/-- `Math.pow(c³, 2/3) = c²` for non-negative `c`. -/
theorem rpow_cube_toThrd {c : ℝ} (hc : 0 ≤ c) :
    (c ^ (3 : ℕ) : ℝ) ^ TOTHRD = c ^ (2 : ℕ) := by
  rw [← Real.rpow_natCast c 3, ← Real.rpow_mul hc]
  rw [show ((3 : ℕ) : ℝ) * TOTHRD = ((2 : ℕ) : ℝ) from by norm_num [TOTHRD]]
  exact Real.rpow_natCast c 2

/-- Exact value of the recovered mean motion of `elemsPeriodBoundary`:
the full two-step J2 recovery, evaluated in closed form. -/
theorem elemsPeriodBoundary_xnodp :
    xnodpOf elemsPeriodBoundary =
      1381544237275760967224337608905671173558901537864348096904278916936129960681 /
        49484119198255408470212372090257040750193664796760548125701621581655597203760 := by
  unfold xnodpOf deloOf aoOf del1Of a1Of x3thm1Of theta2Of cosioOf betaoOf betao2Of eosqOf
  simp only [elemsPeriodBoundary]
  rw [show XKE / (XKE / (1.386 : ℝ) ^ (3 : ℕ)) = (1.386 : ℝ) ^ (3 : ℕ) from by
      norm_num [XKE],
    rpow_cube_toThrd (by norm_num : (0 : ℝ) ≤ 1.386)]
  norm_num [XKE, CK2, XJ2, TOTHRD, Real.cos_zero, Real.sqrt_one]

/-- C1 (counterexample): for `elemsPeriodBoundary` the dispatcher
selects the near-Earth model although the orbital period computed from
the *recovered* mean motion (the `no` field of the initialization
state, `xnodp`) is not below 225 minutes — the code dispatches on the
encoded mean motion `elements.no`, not the recovered one. -/
theorem dispatch_recovered_period_counterexample :
    getSatelliteType elemsPeriodBoundary.no = SatelliteType.nearEarth ∧
    ¬(TWOPI / (sgp4init elemsPeriodBoundary).no < 225.0) := by
  constructor
  · unfold getSatelliteType DEEP_SPACE_THRESHOLD
    rw [if_pos]
    have hno : (0 : ℝ) < elemsPeriodBoundary.no := by
      norm_num [elemsPeriodBoundary, XKE]
    rw [div_lt_iff₀ hno]
    have hpi := Real.pi_lt_d6
    unfold TWOPI PI
    calc 2.0 * Real.pi < 2 * 3.141593 := by linarith
      _ ≤ 225.0 * elemsPeriodBoundary.no := by norm_num [elemsPeriodBoundary, XKE]
  · have hX : (sgp4init elemsPeriodBoundary).no = xnodpOf elemsPeriodBoundary := rfl
    rw [not_lt, hX, elemsPeriodBoundary_xnodp]
    rw [le_div_iff₀ (by norm_num)]
    have hpi := Real.pi_gt_d6
    unfold TWOPI PI
    calc 225.0 * (1381544237275760967224337608905671173558901537864348096904278916936129960681 /
          49484119198255408470212372090257040750193664796760548125701621581655597203760 : ℝ)
        ≤ 2 * 3.141592 := by norm_num
      _ ≤ 2.0 * Real.pi := by linarith

/-- C1 (amended): the dispatcher compares the period computed from the
*encoded* mean motion `elements.no` against 225 minutes: it selects the
near-Earth model exactly when `2π / no < 225`, sends a period of
exactly 225 minutes to the deep-space model, and `propagate` forwards
to `sgp4`/`sdp4` accordingly. -/
theorem dispatch_threshold_uses_encoded_mean_motion (no : ℝ)
    (e : OrbitalElements) (t : ℝ) :
    (getSatelliteType no = SatelliteType.nearEarth ↔ TWOPI / no < 225.0) ∧
    (TWOPI / no = 225.0 → getSatelliteType no = SatelliteType.deepSpace) ∧
    propagate e t = (if TWOPI / e.no < 225.0 then sgp4 e t none else sdp4 e t none) := by
  refine ⟨?_, ?_, ?_⟩
  · unfold getSatelliteType DEEP_SPACE_THRESHOLD
    split_ifs with h <;> simp [h]
  · intro h
    unfold getSatelliteType DEEP_SPACE_THRESHOLD
    rw [if_neg]
    rw [h]
    exact lt_irrefl 225.0
  · unfold propagate getSatelliteType DEEP_SPACE_THRESHOLD
    split_ifs with h <;> rfl

/-- Witness for C1: an encoded mean motion yielding a period of exactly
225 minutes is dispatched to the deep-space model. -/
theorem dispatch_threshold_boundary_witness :
    TWOPI / (TWOPI / 225.0) = 225.0 ∧
    getSatelliteType (TWOPI / 225.0) = SatelliteType.deepSpace := by
  have h2 : TWOPI ≠ 0 := ne_of_gt twoPi_pos
  have h : TWOPI / (TWOPI / 225.0) = 225.0 := by field_simp
  exact ⟨h,
    (dispatch_threshold_uses_encoded_mean_motion (TWOPI / 225.0)
      elemsPeriodBoundary 0).2.1 h⟩

/-- Exact value of the recovered semi-major axis of `elemsPerige207`. -/
theorem elemsPerige207_aodp :
    aodpOf elemsPerige207 =
      369139993912578074857290077363657067423746626587176297667306531327568191011490838319404098188314943382107579884682431550311 /
        357522729315498397821050097989080392004314251188430248448177976975161706901432947671828945661088782075817089927587443750000 := by
  unfold aodpOf deloOf aoOf del1Of a1Of x3thm1Of theta2Of cosioOf betaoOf betao2Of eosqOf
  simp only [elemsPerige207]
  rw [show XKE / (XKE / (1.0156 : ℝ) ^ (3 : ℕ)) = (1.0156 : ℝ) ^ (3 : ℕ) from by
      norm_num [XKE],
    rpow_cube_toThrd (by norm_num : (0 : ℝ) ≤ 1.0156)]
  norm_num [XKE, CK2, XJ2, TOTHRD, Real.cos_zero, Real.sqrt_one]

/-- The `isimp` flag of `elemsPerige207` is set. -/
theorem elemsPerige207_isimp : (sgp4init elemsPerige207).isimp = 1 := by
  show isimpOf elemsPerige207 = 1
  unfold isimpOf
  rw [if_pos]
  rw [elemsPerige207_aodp]
  norm_num [elemsPerige207, AE, XKMPER]

/-- C5 (counterexample): `elemsPerige207` has perigee altitude strictly
between 200 km and 210 km — far above the claimed ≈156 km switch — yet
`sgp4init` sets the simplified-mode flag, because the code's `isimp`
threshold is a perigee altitude of 220 km. -/
theorem sgp4init_simplified_threshold_counterexample :
    (sgp4init elemsPerige207).isimp = 1 ∧
    200.0 < perigeOf elemsPerige207 ∧ perigeOf elemsPerige207 < 210.0 := by
  refine ⟨elemsPerige207_isimp, ?_, ?_⟩ <;>
  · unfold perigeOf
    rw [elemsPerige207_aodp]
    norm_num [elemsPerige207, AE, XKMPER]

/-- C5 (amended): `sgp4init` sets the simplified-mode flag exactly when
the recovered perigee radius `aodp (1 - ecco)` is below
`220 / XKMPER + AE`, i.e. when the perigee altitude is below 220 km;
when the flag is set, the higher-order drag coefficients `d2`, `d3`,
`d4`, `t3cof`, `t4cof`, `t5cof` are all left at zero (and the
156 km / 98 km thresholds select the atmospheric density parameters
`s` and `qoms2t` instead). -/
theorem sgp4init_simplified_mode_at_220km (e : OrbitalElements) :
    ((sgp4init e).isimp = 1 ↔ aodpOf e * (1.0 - e.ecco) / AE < 220.0 / XKMPER + AE) ∧
    ((sgp4init e).isimp = 1 →
      (sgp4init e).d2 = 0 ∧ (sgp4init e).d3 = 0 ∧ (sgp4init e).d4 = 0 ∧
      (sgp4init e).t3cof = 0 ∧ (sgp4init e).t4cof = 0 ∧ (sgp4init e).t5cof = 0) ∧
    (perigeOf e < 156.0 → sOf e = sKmOf e / XKMPER + AE ∧
      qoms2tOf e = ((120.0 - sKmOf e) / XKMPER) ^ (4 : ℕ)) ∧
    (¬ perigeOf e < 156.0 → sOf e = s4const ∧ qoms2tOf e = qoms24const) := by
  have hisimp : (sgp4init e).isimp = isimpOf e := rfl
  by_cases h : aodpOf e * (1.0 - e.ecco) / AE < 220.0 / XKMPER + AE
  · refine ⟨?_, ?_, ?_, ?_⟩
    · rw [hisimp]
      unfold isimpOf
      simp [h]
    · intro h1
      have hne : isimpOf e ≠ 0 := by
        rw [hisimp] at h1
        rw [h1]
        norm_num
      refine ⟨?_, ?_, ?_, ?_, ?_, ?_⟩ <;>
        simp [sgp4init, d2Of, d3Of, d4Of, t3cofOf, t4cofOf, t5cofOf, hne]
    · intro hp
      unfold sOf qoms2tOf
      simp [hp]
    · intro hp
      unfold sOf qoms2tOf
      simp [hp]
  · refine ⟨?_, ?_, ?_, ?_⟩
    · rw [hisimp]
      unfold isimpOf
      simp [h]
    · intro h1
      have : isimpOf e = 0 := by
        unfold isimpOf
        simp [h]
      rw [hisimp, this] at h1
      exact absurd h1 (by norm_num)
    · intro hp
      unfold sOf qoms2tOf
      simp [hp]
    · intro hp
      unfold sOf qoms2tOf
      simp [hp]

/-- Witness for C5: at `elemsPerige207` the simplified-mode flag is set
and all six higher-order drag coefficients are zero. -/
theorem sgp4init_simplified_mode_at_220km_witness :
    (sgp4init elemsPerige207).d2 = 0 ∧ (sgp4init elemsPerige207).d3 = 0 ∧
    (sgp4init elemsPerige207).d4 = 0 ∧ (sgp4init elemsPerige207).t3cof = 0 ∧
    (sgp4init elemsPerige207).t4cof = 0 ∧ (sgp4init elemsPerige207).t5cof = 0 :=
  (sgp4init_simplified_mode_at_220km elemsPerige207).2.1 elemsPerige207_isimp

end








